import Mathlib

/-!
Pong multiplayer server: a shallow embedding of `main.go`

The game state, the input handler `paddleMovement`, the physics functions
(`updateball`, `collisionwithwall`, `collisionwithpaddle`), the state built by
`startGame` and the membership part of the dispatcher `manager` are embedded as
pure functions.

Modelling conventions:

* Go's `int` is taken at its 64-bit width.  Integer fields are `Int`; every
  arithmetic operation of the source is followed by `wrapInt`, the reduction
  into `[-2^63, 2^63)` that Go's signed arithmetic performs.
* `rng.Intn(2)` is a parameter of type `Fin 2`.
* The global `game *Gamestate` is an `Option Gamestate` (`none` is `nil`).
* The global `clients` map is a list of clients with pairwise distinct ids;
  the order of the list stands for one iteration order of the map.
* The outcome of a socket write is a parameter: a predicate on client ids
  telling whose write fails.
* `startGame` calls `broadcastToclient` while it holds `clientsMu`; on a failed
  write `broadcastToclient` locks `clientsMu` again and never returns.  The
  flag `blocked` of the server state records that the calling goroutine is
  parked there; from then on every operation that locks `clientsMu` parks too.
-/

namespace Pong

/-! ## Constants -/

@[simp] def MAX_PLAYERS : Nat := 2
@[simp] def GAME_WIDTH : Int := 500
@[simp] def GAME_HEIGHT : Int := 500
@[simp] def PADDLE_WIDTH : Int := 25
@[simp] def PADDLE_HEIGHT : Int := 100
@[simp] def BALL_RADIUS : Int := 12
@[simp] def PADDLE_SPEED : Int := 50

/-! ## Machine integers -/

/-- Smallest value of a 64-bit Go `int`. -/
@[simp] def minInt : Int := -9223372036854775808

/-- Largest value of a 64-bit Go `int`. -/
@[simp] def maxInt : Int := 9223372036854775807

/-- Result of a Go `int` operation whose mathematical value is `x`: the
representative of `x` modulo `2^64` in `[-2^63, 2^63)`. -/
def wrapInt (x : Int) : Int :=
  (x + 9223372036854775808) % 18446744073709551616 - 9223372036854775808

/-- The value is representable as a 64-bit Go `int`. -/
def isInt (x : Int) : Prop := minInt ≤ x ∧ x ≤ maxInt

instance (x : Int) : Decidable (isInt x) := by
  unfold isInt; infer_instance

/-! ## Data model -/

/-- Go `type Ball struct`. -/
structure Ball where
  X : Int
  Y : Int
  Speed : Int
  Dx : Int
  Dy : Int
  deriving DecidableEq, Repr

/-- Go `type Paddlemovement struct`. -/
structure Paddlemovement where
  Y : Int
  X : Int
  Role : String
  Width : Int
  Height : Int
  Id : String
  deriving DecidableEq, Repr

/-- Go `type Score struct`. -/
structure Score where
  Player1 : Int
  Player2 : Int
  deriving DecidableEq, Repr

/-- Go `type Gamestate struct`; the field `Type` is spelled `Type_`. -/
structure Gamestate where
  Type_ : String
  Ball : Ball
  Paddle1 : Paddlemovement
  Paddle2 : Paddlemovement
  Score : Score
  deriving DecidableEq, Repr

/-- Go `type Client struct`, without the socket handle. -/
structure Client where
  id : String
  role : String
  deriving DecidableEq, Repr

/-! ## Input handling -/

/-- The body shared by the two `case` arms of `paddleMovement` once the owner
check has passed: the step for `up`, the step for `down`, then the two clamps. -/
def movePaddle (p : Paddlemovement) (direction : String) : Paddlemovement :=
  let p := if direction = "up" then { p with Y := wrapInt (p.Y - PADDLE_SPEED) } else p
  let p := if direction = "down" then { p with Y := wrapInt (p.Y + PADDLE_SPEED) } else p
  let p := if p.Y < 0 then { p with Y := 0 } else p
  if p.Y > wrapInt (GAME_HEIGHT - p.Height) then
    { p with Y := wrapInt (GAME_HEIGHT - p.Height) }
  else p

/-- Go `func paddleMovement(playerID, role, direction string)` acting on the
global `game`. -/
def paddleMovement (game : Option Gamestate) (playerID role direction : String) :
    Option Gamestate :=
  match game with
  | none => none
  | some g =>
    if role = "player1" then
      if g.Paddle1.Id ≠ playerID then some g
      else some { g with Paddle1 := movePaddle g.Paddle1 direction }
    else if role = "player2" then
      if g.Paddle2.Id ≠ playerID then some g
      else some { g with Paddle2 := movePaddle g.Paddle2 direction }
    else some g

/-! ## Physics -/

/-- The table `[]int{-1, 1}` indexed by a draw of `rng.Intn(2)`. -/
def direction (r : Fin 2) : Int := [(-1 : Int), 1].get r

/-- Go `func Ballcreation() Ball`; `r1`, `r2` are the two draws of `rng.Intn(2)`. -/
def Ballcreation (r1 r2 : Fin 2) : Ball :=
  { X := GAME_WIDTH / 2
    Y := GAME_HEIGHT / 2
    Speed := 1
    Dx := direction r1
    Dy := direction r2 }

/-- Go `func updateball(gameball *Ball)`. -/
def updateball (gameball : Ball) : Ball :=
  let b := { gameball with X := wrapInt (gameball.X + wrapInt (gameball.Dx * gameball.Speed)) }
  { b with Y := wrapInt (b.Y + wrapInt (b.Dy * b.Speed)) }

/-- Go `func collisionwithwall(state *Gamestate)`; `r1`, `r2` are the draws
consumed by `Ballcreation` when a goal fires. -/
def collisionwithwall (state : Gamestate) (r1 r2 : Fin 2) : Gamestate :=
  let state :=
    if state.Ball.Y ≤ BALL_RADIUS then
      { state with Ball := { state.Ball with Y := BALL_RADIUS, Dy := wrapInt (state.Ball.Dy * -1) } }
    else state
  let state :=
    if state.Ball.Y ≥ GAME_HEIGHT - BALL_RADIUS then
      { state with Ball := { state.Ball with Y := GAME_HEIGHT - BALL_RADIUS,
                                             Dy := wrapInt (state.Ball.Dy * -1) } }
    else state
  if state.Ball.X ≤ BALL_RADIUS then
    { state with Score := { state.Score with Player2 := wrapInt (state.Score.Player2 + 1) },
                 Ball := Ballcreation r1 r2 }
  else if state.Ball.X ≥ GAME_WIDTH - BALL_RADIUS then
    { state with Score := { state.Score with Player1 := wrapInt (state.Score.Player1 + 1) },
                 Ball := Ballcreation r1 r2 }
  else state

/-- The two wall blocks of `collisionwithwall` (top wall, then bottom wall),
before the goal blocks. -/
def bounceWalls (state : Gamestate) : Gamestate :=
  let state :=
    if state.Ball.Y ≤ BALL_RADIUS then
      { state with Ball := { state.Ball with Y := BALL_RADIUS, Dy := wrapInt (state.Ball.Dy * -1) } }
    else state
  if state.Ball.Y ≥ GAME_HEIGHT - BALL_RADIUS then
    { state with Ball := { state.Ball with Y := GAME_HEIGHT - BALL_RADIUS,
                                           Dy := wrapInt (state.Ball.Dy * -1) } }
  else state

/-- The two goal blocks of `collisionwithwall` (left goal, then right goal). -/
def scoreGoals (state : Gamestate) (r1 r2 : Fin 2) : Gamestate :=
  if state.Ball.X ≤ BALL_RADIUS then
    { state with Score := { state.Score with Player2 := wrapInt (state.Score.Player2 + 1) },
                 Ball := Ballcreation r1 r2 }
  else if state.Ball.X ≥ GAME_WIDTH - BALL_RADIUS then
    { state with Score := { state.Score with Player1 := wrapInt (state.Score.Player1 + 1) },
                 Ball := Ballcreation r1 r2 }
  else state

/-- The condition of the first `if` of `collisionwithpaddle` (player1 paddle). -/
def hitPaddle1 (state : Gamestate) : Bool :=
  decide (state.Ball.Dx < 0) &&
  decide (state.Ball.X ≤ wrapInt (wrapInt (state.Paddle1.X + state.Paddle1.Width) + BALL_RADIUS)) &&
  decide (wrapInt (state.Ball.Y + BALL_RADIUS) ≥ state.Paddle1.Y) &&
  decide (wrapInt (state.Ball.Y - BALL_RADIUS) ≤ wrapInt (state.Paddle1.Y + state.Paddle1.Height))

/-- The condition of the second `if` of `collisionwithpaddle` (player2 paddle). -/
def hitPaddle2 (state : Gamestate) : Bool :=
  decide (state.Ball.Dx > 0) &&
  decide (state.Ball.X ≥ wrapInt (state.Paddle2.X - BALL_RADIUS)) &&
  decide (wrapInt (state.Ball.Y + BALL_RADIUS) ≥ state.Paddle2.Y) &&
  decide (wrapInt (state.Ball.Y - BALL_RADIUS) ≤ wrapInt (state.Paddle2.Y + state.Paddle2.Height))

/-- The first `if` block of `collisionwithpaddle` (player1 paddle). -/
def bouncePaddle1 (state : Gamestate) : Gamestate :=
  if hitPaddle1 state then
    { state with Ball := { state.Ball with
        X := wrapInt (wrapInt (state.Paddle1.X + state.Paddle1.Width) + BALL_RADIUS),
        Dx := 1,
        Speed := wrapInt (state.Ball.Speed + 1) } }
  else state

/-- The second `if` block of `collisionwithpaddle` (player2 paddle). -/
def bouncePaddle2 (state : Gamestate) : Gamestate :=
  if hitPaddle2 state then
    { state with Ball := { state.Ball with
        X := wrapInt (state.Paddle2.X - BALL_RADIUS),
        Dx := -1,
        Speed := wrapInt (state.Ball.Speed + 1) } }
  else state

/-- Go `func collisionwithpaddle(state *Gamestate)`: the player1 block, then
the player2 block on the state the first block left. -/
def collisionwithpaddle (state : Gamestate) : Gamestate :=
  bouncePaddle2 (bouncePaddle1 state)

/-- The state mutation of one `ticker.C` iteration of `Mainlogic`:
`updateball`, `collisionwithwall`, `collisionwithpaddle`, in that order. -/
def tick (state : Gamestate) (r1 r2 : Fin 2) : Gamestate :=
  collisionwithpaddle (collisionwithwall { state with Ball := updateball state.Ball } r1 r2)

/-- The state the paddle test of a tick sees: the ball advanced by
`updateball` and passed through `collisionwithwall`. -/
def afterWall (g : Gamestate) (r1 r2 : Fin 2) : Gamestate :=
  collisionwithwall { g with Ball := updateball g.Ball } r1 r2

/-! ## Connection registry and dispatcher -/

/-- Go `clients[client.id] = client` on the registry map. -/
def mapStore (clients : List Client) (client : Client) : List Client :=
  client :: clients.filter (fun c => c.id ≠ client.id)

/-- Go `delete(clients, id)` on the registry map. -/
def mapDelete (clients : List Client) (id : String) : List Client :=
  clients.filter (fun c => c.id ≠ id)

/-- Go `func broadcastToAll(msg []byte)`: every member whose write fails is
closed and deleted from the registry; `fails` tells whose write fails. -/
def broadcastToAll (clients : List Client) (fails : String → Bool) : List Client :=
  clients.filter (fun c => !fails c.id)

/-- The role assignment of the `addClient` case of `manager`: `n` is
`len(clients)` before the client is stored. -/
def assignRole (n : Nat) (client : Client) : Client :=
  if n = 0 then { client with role := "player1" }
  else if n = 1 then { client with role := "player2" }
  else client

/-- The locked section of the `addClient` case of `manager`: the new registry
and, when the client is accepted, the client with its role; `none` when the
connection is closed because the registry is full. -/
def addClientLocked (clients : List Client) (client : Client) : List Client × Option Client :=
  if clients.length ≥ MAX_PLAYERS then (clients, none)
  else (mapStore clients (assignRole clients.length client),
        some (assignRole clients.length client))

/-- Zero value of `Paddlemovement` (`var paddle1, paddle2 Paddlemovement`). -/
def zeroPaddle : Paddlemovement :=
  { Y := 0, X := 0, Role := "", Width := 0, Height := 0, Id := "" }

/-- The body of the `for _, c := range clients` loop of `startGame`, on the
pair `(paddle1, paddle2)`. -/
def assignPaddle (ps : Paddlemovement × Paddlemovement) (c : Client) :
    Paddlemovement × Paddlemovement :=
  if c.role = "player1" then
    ({ X := 0, Y := GAME_HEIGHT / 2, Role := "player1", Id := c.id,
       Width := PADDLE_WIDTH, Height := PADDLE_HEIGHT }, ps.2)
  else
    (ps.1, { X := GAME_WIDTH - PADDLE_WIDTH, Y := GAME_HEIGHT / 2, Role := "player2", Id := c.id,
             Width := PADDLE_WIDTH, Height := PADDLE_HEIGHT })

/-- The game state `startGame` installs: `clients` is the registry in the
order the `range` loop visits it, `r1`, `r2` are the draws of `Ballcreation`. -/
def newGame (clients : List Client) (r1 r2 : Fin 2) : Gamestate :=
  let ps := clients.foldl assignPaddle (zeroPaddle, zeroPaddle)
  { Type_ := "GAME_STATE"
    Ball := Ballcreation r1 r2
    Paddle1 := ps.1
    Paddle2 := ps.2
    Score := { Player1 := 0, Player2 := 0 } }

/-- The process-wide state: the registry, the live game, and the stop
channels.  Channel `i` is closed iff `chans[i]` is `true`; `stopGame` is the
index of the current channel (`none` is `nil`); `loops` lists the channel
handed to each started `Mainlogic`, oldest first; `fault` records a
`close` of an already closed channel; `blocked` records that a goroutine is
parked inside `startGame` on `clientsMu` while holding it, so that the lock is
never released again. -/
structure Server where
  clients : List Client
  game : Option Gamestate
  chans : List Bool
  stopGame : Option Nat
  loops : List Nat
  fault : Bool
  blocked : Bool

/-- The server at process start. -/
def Server.init : Server :=
  { clients := [], game := none, chans := [], stopGame := none, loops := [], fault := false,
    blocked := false }

/-- A receive on a stop channel succeeds iff the channel is closed (nothing is
ever sent on it). -/
def Server.closed (s : Server) (ch : Nat) : Bool := s.chans.getD ch false

/-- Go `close(ch)`: closing a closed channel is a fault. -/
def Server.close (s : Server) (ch : Nat) : Server :=
  if s.closed ch then { s with fault := true }
  else { s with chans := s.chans.set ch true }

/-- The first block of `startGame` ("stop previous game safely"): when
`stopGame` is not nil, the `select` takes the receive case on a closed channel
and the `default` case, which closes it, on an open one. -/
def stopPrevious (s : Server) : Server :=
  match s.stopGame with
  | some ch => if s.closed ch then s else s.close ch
  | none => s

/-- Go `func startGame()`.  `fails` is the outcome of the writes of the
"start game" broadcast, `infoFails` the outcome of the `PLAYER_INFO` writes of
`broadcastToclient`.

The previous stop channel is closed unless it is closed already, and a new one
is made; neither needs a lock.  `broadcastToAll` then locks `clientsMu`: if a
goroutine is parked holding it, this call parks as well.  Otherwise the members
whose "start game" write fails are pruned, and the `range` loop runs under
`clientsMu`: at the first member whose `PLAYER_INFO` write fails,
`broadcastToclient` closes the socket and locks `clientsMu` a second time, so
the call parks for ever with the registry as pruned, no game installed and no
`Mainlogic` started.  When every `PLAYER_INFO` write succeeds the game is
installed and `Mainlogic` is started on the new channel. -/
def startGame (s : Server) (fails infoFails : String → Bool) (r1 r2 : Fin 2) : Server :=
  let s := stopPrevious s
  let ch := s.chans.length
  let s := { s with chans := s.chans ++ [false], stopGame := some ch }
  if s.blocked then s
  else
    let s := { s with clients := broadcastToAll s.clients fails }
    if s.clients.any (fun c => infoFails c.id) then { s with blocked := true }
    else { s with game := some (newGame s.clients r1 r2), loops := s.loops ++ [ch] }

/-- Go `func Restart_Game()`. -/
def Restart_Game (s : Server) (fails infoFails : String → Bool) (r1 r2 : Fin 2) : Server :=
  startGame s fails infoFails r1 r2

/-- The events `manager` selects on.  Each carries the outcome of the socket
writes it triggers (one predicate per `broadcastToAll` call, and `info` for the
`PLAYER_INFO` writes of a `startGame`) and, for a join, the draws used if a
game starts. -/
inductive Event where
  | addClient (client : Client) (w1 w2 w3 info : String → Bool) (r1 r2 : Fin 2)
  | removeClient (client : Client) (w : String → Bool)
  | broadcast (w : String → Bool)

/-- What the registry of an accepted join goes through after the locked
section of the `addClient` case: the "new player joined" broadcast, the
"waiting for opponent" broadcast when one member is left, and the "start game"
broadcast of `startGame` when two are; each prunes the members whose write
fails. -/
def pruneAfterJoin (clients : List Client) (w1 w2 w3 : String → Bool) : List Client :=
  let clients := broadcastToAll clients w1
  let clients := if clients.length = 1 then broadcastToAll clients w2 else clients
  if clients.length = 2 then broadcastToAll clients w3 else clients

/-- One iteration of the `for`/`select` loop of Go `func manager()`.  Every
case locks `clientsMu` first, so nothing happens once a goroutine is parked
holding it. -/
def manager (s : Server) : Event → Server
  | .addClient client w1 w2 w3 info r1 r2 =>
    if s.blocked then s
    else
      match addClientLocked s.clients client with
      | (_, none) => s
      | (clients, some _) =>
        let s := { s with clients := broadcastToAll clients w1 }
        let s := if s.clients.length = 1 then
                   { s with clients := broadcastToAll s.clients w2 }
                 else s
        if s.clients.length = 2 then startGame s w3 info r1 r2 else s
  | .removeClient client w =>
    if s.blocked then s
    else { s with clients := broadcastToAll (mapDelete s.clients client.id) w }
  | .broadcast w =>
    if s.blocked then s
    else { s with clients := broadcastToAll s.clients w }

/-- Every socket write succeeds. -/
def allDelivered : String → Bool := fun _ => false

/-- Only the write to the connection "b" fails. -/
def failsB : String → Bool := fun id => id == "b"

/-! ## Interleavings of input and ticks on the live game -/

/-- What can happen to the live game: a `MOVEMENT` message is applied by
`paddleMovement`, or the ticker fires with the draws a respawn would use. -/
inductive Step where
  | move (playerID role direction : String)
  | tick (r1 r2 : Fin 2)

/-- Effect of one step on the global `game`. -/
def step (game : Option Gamestate) : Step → Option Gamestate
  | .move playerID role direction => paddleMovement game playerID role direction
  | .tick r1 r2 => game.map (fun g => tick g r1 r2)

/-- Effect of a sequence of steps, applied in order. -/
def run (game : Option Gamestate) (steps : List Step) : Option Gamestate :=
  steps.foldl step game

/-- A call that starts or restarts the session, with the write outcomes and
the draws it uses. -/
inductive StartCall where
  | start (fails infoFails : String → Bool) (r1 r2 : Fin 2)
  | restart (fails infoFails : String → Bool) (r1 r2 : Fin 2)

/-- Effect of one call of `startGame` or `Restart_Game`. -/
def applyCall (s : Server) : StartCall → Server
  | .start fails infoFails r1 r2 => startGame s fails infoFails r1 r2
  | .restart fails infoFails r1 r2 => Restart_Game s fails infoFails r1 r2

/-- Effect of a sequence of start and restart calls, in order. -/
def runCalls (s : Server) (calls : List StartCall) : Server :=
  calls.foldl applyCall s

/-! ## Predicates used in the statements -/

/-- The stop channels after `n + 1` sessions were started one after the
other: channels `0 .. n - 1` are closed, channel `n` is open and current, loop
`i` holds channel `i`, and no `close` has faulted. -/
def Started (s : Server) (n : Nat) : Prop :=
  s.fault = false ∧ s.chans = List.replicate n true ++ [false] ∧
  s.stopGame = some n ∧ s.loops = List.range n ++ [n]

/-- Both paddles have the session-start height and lie inside the field. -/
def PaddlesClamped (g : Gamestate) : Prop :=
  g.Paddle1.Height = 100 ∧ 0 ≤ g.Paddle1.Y ∧ g.Paddle1.Y ≤ 400 ∧
  g.Paddle2.Height = 100 ∧ 0 ≤ g.Paddle2.Y ∧ g.Paddle2.Y ≤ 400

/-- The paddle `assignPaddle` builds for a `player1` client. -/
def IsStartPaddle1 (p : Paddlemovement) : Prop :=
  p.X = 0 ∧ p.Y = 250 ∧ p.Width = 25 ∧ p.Height = 100 ∧ p.Role = "player1"

/-- The paddle `assignPaddle` builds for any other client. -/
def IsStartPaddle2 (p : Paddlemovement) : Prop :=
  p.X = 475 ∧ p.Y = 250 ∧ p.Width = 25 ∧ p.Height = 100 ∧ p.Role = "player2"

/-- Both direction components of the ball are exactly -1 or 1. -/
def UnitDirections (b : Ball) : Prop :=
  (b.Dx = -1 ∨ b.Dx = 1) ∧ (b.Dy = -1 ∨ b.Dy = 1)


/-! ## Concrete inputs -/

/-- A registry with one `player1` and one `player2` connection and no game yet. -/
def twoPlayers : Server :=
  { Server.init with clients := [{ id := "a", role := "player1" }, { id := "b", role := "player2" }] }

/-- Player1 pushes the paddle down five times, the ticker fires, player2 pushes
up six times. -/
def sampleSteps : List Step :=
  [.move "a" "player1" "down", .move "a" "player1" "down", .move "a" "player1" "down",
   .move "a" "player1" "down", .move "a" "player1" "down", .tick 0 1,
   .move "b" "player2" "up", .move "b" "player2" "up", .move "b" "player2" "up",
   .move "b" "player2" "up", .move "b" "player2" "up", .move "b" "player2" "up"]

/-- A session-start court with the given ball and score: paddle1 at x = 0,
paddle2 at x = 475, both 25 wide and 100 high, at height `y1` and `y2`. -/
def court (ball : Ball) (y1 y2 : Int) (score : Score) : Gamestate :=
  { Type_ := "GAME_STATE"
    Ball := ball
    Paddle1 := { Y := y1, X := 0, Role := "player1", Width := 25, Height := 100, Id := "a" }
    Paddle2 := { Y := y2, X := 475, Role := "player2", Width := 25, Height := 100, Id := "b" }
    Score := score }

/-- The ball one step away from the left goal while player2's score is the
largest `int`. -/
def scoreAtMax : Gamestate :=
  court { X := 13, Y := 250, Speed := 1, Dx := -1, Dy := 1 } 250 250
    { Player1 := 0, Player2 := 9223372036854775807 }

/-- The ball one step away from the left goal at score 3 : 4. -/
def leftGoalState : Gamestate :=
  court { X := 13, Y := 250, Speed := 1, Dx := -1, Dy := 1 } 250 250
    { Player1 := 3, Player2 := 4 }

/-- A rally in progress: the ball in midfield heading right and down. -/
def rallyState : Gamestate :=
  court { X := 300, Y := 480, Speed := 9, Dx := 1, Dy := 1 } 150 400
    { Player1 := 2, Player2 := 1 }

/-- Connection "a" joins, "b" joins, "a" leaves, "c" joins; every socket
write succeeds. -/
def rejoinEvents : List Event :=
  [.addClient { id := "a", role := "" } allDelivered allDelivered allDelivered allDelivered 0 0,
   .addClient { id := "b", role := "" } allDelivered allDelivered allDelivered allDelivered 0 0,
   .removeClient { id := "a", role := "player1" } allDelivered,
   .addClient { id := "c", role := "" } allDelivered allDelivered allDelivered allDelivered 0 0]

/-- A ball of the largest `int` speed whose advanced position (20, 250) is in
front of player1's paddle. -/
def speedAtMax : Gamestate :=
  court { X := -9223372036854775789, Y := -9223372036854775559,
          Speed := 9223372036854775807, Dx := -1, Dy := -1 } 200 200
    { Player1 := 0, Player2 := 0 }

/-- A ball of speed 5 about to reach player1's paddle. -/
def incomingState : Gamestate :=
  court { X := 40, Y := 250, Speed := 5, Dx := -1, Dy := 1 } 200 200
    { Player1 := 0, Player2 := 0 }

/-- The scenario of the specification: ball at (13, 250) moving left with
speed 1, player1's paddle spanning y in [200, 300]. -/
def scenarioAt13 : Gamestate :=
  court { X := 13, Y := 250, Speed := 1, Dx := -1, Dy := 1 } 200 200
    { Player1 := 0, Player2 := 0 }

/-- The same scenario with the ball one step further right, at (14, 250). -/
def scenarioAt14 : Gamestate :=
  court { X := 14, Y := 250, Speed := 1, Dx := -1, Dy := 1 } 200 200
    { Player1 := 0, Player2 := 0 }

/-- A court whose player1 paddle has height `500 - maxInt` and sits at the
largest `int`, which satisfies `0 ≤ y ≤ GAME_HEIGHT - height`. -/
def hugePaddleState : Gamestate :=
  { court { X := 250, Y := 250, Speed := 1, Dx := 1, Dy := 1 } 250 250
      { Player1 := 0, Player2 := 0 } with
    Paddle1 := { Y := 9223372036854775807, X := 0, Role := "player1", Width := 25,
                 Height := -9223372036854775307, Id := "a" } }

/-- A court whose player1 paddle has the smallest `int` as height and sits at
y = 100, which satisfies `0 ≤ y ≤ GAME_HEIGHT - height`. -/
def deepPaddleState : Gamestate :=
  { court { X := 250, Y := 250, Speed := 1, Dx := 1, Dy := 1 } 250 250
      { Player1 := 0, Player2 := 0 } with
    Paddle1 := { Y := 100, X := 0, Role := "player1", Width := 25,
                 Height := -9223372036854775808, Id := "a" } }

/-- A start followed by two restarts in a row. -/
def doubleRestart : List StartCall :=
  [.start allDelivered allDelivered 0 0, .restart allDelivered allDelivered 1 0,
   .restart allDelivered allDelivered 0 1]

/-- A start that completes, then a restart during which the `PLAYER_INFO`
write to "b" fails. -/
def restartWithDeadPeer : List StartCall :=
  [.start allDelivered allDelivered 0 0, .restart allDelivered failsB 1 0]

/-- A server whose current stop channel (index 0) is already closed. -/
def alreadyStopped : Server :=
  { Server.init with chans := [true], stopGame := some 0, loops := [0] }

/-- A ball of the largest `int` speed at (30, 250), level with player1's
paddle and moving towards it. -/
def fastBallAtPaddle : Gamestate :=
  court { X := 30, Y := 250, Speed := 9223372036854775807, Dx := -1, Dy := 1 } 200 200
    { Player1 := 0, Player2 := 0 }

/-- A ball of speed 4 at (470, 390) moving towards player2's paddle at
y = 400. -/
def rightHitState : Gamestate :=
  court { X := 470, Y := 390, Speed := 4, Dx := 1, Dy := -1 } 150 400
    { Player1 := 2, Player2 := 1 }

/-- A ball at the top wall whose dy is the smallest `int`. -/
def steepBallState : Gamestate :=
  court { X := 250, Y := 10, Speed := 1, Dx := 1, Dy := -9223372036854775808 } 200 200
    { Player1 := 0, Player2 := 0 }

/-- A ball at y = 12 heading down (dy = 1) with the largest `int` speed, whose
advanced x is 250. -/
def wrappingBallState : Gamestate :=
  court { X := -9223372036854775557, Y := 12, Speed := 9223372036854775807, Dx := 1, Dy := 1 }
    200 200 { Player1 := 0, Player2 := 0 }

/-- A ball of speed 6 at (200, 15) heading up. -/
def topBounceState : Gamestate :=
  court { X := 200, Y := 15, Speed := 6, Dx := 1, Dy := -1 } 200 200
    { Player1 := 0, Player2 := 0 }

/-- The ball one step away from the right goal at score 3 : 4. -/
def rightGoalState : Gamestate :=
  court { X := 480, Y := 100, Speed := 8, Dx := 1, Dy := 1 } 250 250
    { Player1 := 3, Player2 := 4 }

/-- Connection "a" joins, "b" joins and the first game starts, "a" leaves, "c"
joins and `startGame` runs again; every write succeeds except the
`PLAYER_INFO` write of that second `startGame` to "b". -/
def rejoinDeadPeer : List Event :=
  [.addClient { id := "a", role := "" } allDelivered allDelivered allDelivered allDelivered 0 0,
   .addClient { id := "b", role := "" } allDelivered allDelivered allDelivered allDelivered 0 0,
   .removeClient { id := "a", role := "player1" } allDelivered,
   .addClient { id := "c", role := "" } allDelivered allDelivered allDelivered failsB 0 0]

end Pong

namespace Pong

/-! ## Auxiliary facts -/

theorem wrapInt_eq_self {x : Int} (h1 : minInt ≤ x) (h2 : x ≤ maxInt) : wrapInt x = x := by
  simp only [minInt, maxInt] at h1 h2
  unfold wrapInt
  omega

theorem wrapInt_isInt (x : Int) : minInt ≤ wrapInt x ∧ wrapInt x ≤ maxInt := by
  simp only [minInt, maxInt]
  unfold wrapInt
  omega

theorem direction_cases (r : Fin 2) : direction r = -1 ∨ direction r = 1 := by
  fin_cases r
  · left; rfl
  · right; rfl

theorem bouncePaddle1_paddles (state : Gamestate) :
    (bouncePaddle1 state).Paddle1 = state.Paddle1 ∧
    (bouncePaddle1 state).Paddle2 = state.Paddle2 ∧
    (bouncePaddle1 state).Score = state.Score ∧
    (bouncePaddle1 state).Ball.Y = state.Ball.Y ∧
    (bouncePaddle1 state).Ball.Dy = state.Ball.Dy := by
  unfold bouncePaddle1
  split <;> simp

theorem bouncePaddle2_paddles (state : Gamestate) :
    (bouncePaddle2 state).Paddle1 = state.Paddle1 ∧
    (bouncePaddle2 state).Paddle2 = state.Paddle2 ∧
    (bouncePaddle2 state).Score = state.Score ∧
    (bouncePaddle2 state).Ball.Y = state.Ball.Y ∧
    (bouncePaddle2 state).Ball.Dy = state.Ball.Dy := by
  unfold bouncePaddle2
  split <;> simp

theorem collisionwithpaddle_frame (state : Gamestate) :
    (collisionwithpaddle state).Paddle1 = state.Paddle1 ∧
    (collisionwithpaddle state).Paddle2 = state.Paddle2 ∧
    (collisionwithpaddle state).Score = state.Score ∧
    (collisionwithpaddle state).Ball.Y = state.Ball.Y ∧
    (collisionwithpaddle state).Ball.Dy = state.Ball.Dy := by
  unfold collisionwithpaddle
  obtain ⟨a1, a2, a3, a4, a5⟩ := bouncePaddle1_paddles state
  obtain ⟨b1, b2, b3, b4, b5⟩ := bouncePaddle2_paddles (bouncePaddle1 state)
  exact ⟨b1.trans a1, b2.trans a2, b3.trans a3, b4.trans a4, b5.trans a5⟩

theorem collisionwithwall_paddles (state : Gamestate) (r1 r2 : Fin 2) :
    (collisionwithwall state r1 r2).Paddle1 = state.Paddle1 ∧
    (collisionwithwall state r1 r2).Paddle2 = state.Paddle2 := by
  unfold collisionwithwall
  simp only
  split_ifs <;> simp

theorem tick_paddles (state : Gamestate) (r1 r2 : Fin 2) :
    (tick state r1 r2).Paddle1 = state.Paddle1 ∧ (tick state r1 r2).Paddle2 = state.Paddle2 := by
  unfold tick
  obtain ⟨a1, a2, -⟩ := collisionwithpaddle_frame
    (collisionwithwall { state with Ball := updateball state.Ball } r1 r2)
  obtain ⟨b1, b2⟩ := collisionwithwall_paddles { state with Ball := updateball state.Ball } r1 r2
  exact ⟨a1.trans b1, a2.trans b2⟩

theorem movePaddle_fields (p : Paddlemovement) (direction : String) :
    (movePaddle p direction).X = p.X ∧ (movePaddle p direction).Width = p.Width ∧
    (movePaddle p direction).Height = p.Height ∧ (movePaddle p direction).Role = p.Role ∧
    (movePaddle p direction).Id = p.Id := by
  unfold movePaddle
  simp only
  split_ifs <;> simp

theorem movePaddle_clamped (p : Paddlemovement) (direction : String)
    (hH : p.Height = 100) (h0 : 0 ≤ p.Y) (h1 : p.Y ≤ 400) :
    0 ≤ (movePaddle p direction).Y ∧ (movePaddle p direction).Y ≤ 400 := by
  unfold movePaddle
  simp only [GAME_HEIGHT, PADDLE_SPEED, hH]
  have e : wrapInt (500 - 100) = 400 := by decide
  split_ifs <;> simp_all

theorem paddleMovement_some (g : Gamestate) (playerID role direction : String) :
    ∃ g1, paddleMovement (some g) playerID role direction = some g1 ∧
      (g1.Paddle1 = g.Paddle1 ∨ g1.Paddle1 = movePaddle g.Paddle1 direction) ∧
      (g1.Paddle2 = g.Paddle2 ∨ g1.Paddle2 = movePaddle g.Paddle2 direction) ∧
      g1.Ball = g.Ball ∧ g1.Score = g.Score := by
  unfold paddleMovement
  simp only
  split_ifs <;> simp

theorem PaddlesClamped_step (g : Gamestate) (st : Step) (h : PaddlesClamped g) :
    ∃ g1, step (some g) st = some g1 ∧ PaddlesClamped g1 := by
  obtain ⟨a1, a2, a3, b1, b2, b3⟩ := h
  cases st with
  | move playerID role direction =>
    obtain ⟨g1, e, p1, p2, -⟩ := paddleMovement_some g playerID role direction
    refine ⟨g1, e, ?_⟩
    have m1 := movePaddle_clamped g.Paddle1 direction a1 a2 a3
    have m2 := movePaddle_clamped g.Paddle2 direction b1 b2 b3
    have f1 := (movePaddle_fields g.Paddle1 direction).2.2.1
    have f2 := (movePaddle_fields g.Paddle2 direction).2.2.1
    unfold PaddlesClamped
    rcases p1 with p1 | p1 <;> rcases p2 with p2 | p2 <;> rw [p1, p2] <;>
      simp only [f1, f2, a1, b1, true_and] <;> omega
  | tick r1 r2 =>
    refine ⟨tick g r1 r2, rfl, ?_⟩
    obtain ⟨e1, e2⟩ := tick_paddles g r1 r2
    unfold PaddlesClamped
    rw [e1, e2]
    exact ⟨a1, a2, a3, b1, b2, b3⟩

theorem PaddlesClamped_run (steps : List Step) (g : Gamestate) (h : PaddlesClamped g) :
    ∃ g1, run (some g) steps = some g1 ∧ PaddlesClamped g1 := by
  induction steps generalizing g with
  | nil => exact ⟨g, rfl, h⟩
  | cons st rest ih =>
    obtain ⟨g1, e1, h1⟩ := PaddlesClamped_step g st h
    obtain ⟨g2, e2, h2⟩ := ih g1 h1
    refine ⟨g2, ?_, h2⟩
    simp only [run, List.foldl_cons] at e2 ⊢
    rw [e1]
    exact e2

theorem foldl_assignPaddle_keep (clients : List Client) (ps : Paddlemovement × Paddlemovement) :
    (IsStartPaddle1 ps.1 → IsStartPaddle1 (clients.foldl assignPaddle ps).1) ∧
    (IsStartPaddle2 ps.2 → IsStartPaddle2 (clients.foldl assignPaddle ps).2) := by
  induction clients generalizing ps with
  | nil => exact ⟨id, id⟩
  | cons c rest ih =>
    simp only [List.foldl_cons]
    constructor
    · intro h
      apply (ih (assignPaddle ps c)).1
      unfold assignPaddle
      split
      · simp [IsStartPaddle1]
      · exact h
    · intro h
      apply (ih (assignPaddle ps c)).2
      unfold assignPaddle
      split
      · exact h
      · simp [IsStartPaddle2]

theorem foldl_assignPaddle_start (clients : List Client) (ps : Paddlemovement × Paddlemovement) :
    ((∃ c ∈ clients, c.role = "player1") → IsStartPaddle1 (clients.foldl assignPaddle ps).1) ∧
    ((∃ c ∈ clients, c.role ≠ "player1") → IsStartPaddle2 (clients.foldl assignPaddle ps).2) := by
  induction clients generalizing ps with
  | nil => simp
  | cons c rest ih =>
    simp only [List.foldl_cons]
    constructor
    · rintro ⟨c1, hc1, hr⟩
      by_cases hc : c.role = "player1"
      · apply (foldl_assignPaddle_keep rest _).1
        simp [assignPaddle, hc, IsStartPaddle1]
      · apply (ih _).1
        rcases List.mem_cons.mp hc1 with rfl | hmem
        · exact absurd hr hc
        · exact ⟨c1, hmem, hr⟩
    · rintro ⟨c1, hc1, hr⟩
      by_cases hc : c.role = "player1"
      · apply (ih _).2
        rcases List.mem_cons.mp hc1 with rfl | hmem
        · exact absurd hc hr
        · exact ⟨c1, hmem, hr⟩
      · apply (foldl_assignPaddle_keep rest _).2
        simp [assignPaddle, hc, IsStartPaddle2]

theorem stopPrevious_frame (s : Server) :
    (stopPrevious s).clients = s.clients ∧ (stopPrevious s).game = s.game ∧
    (stopPrevious s).loops = s.loops ∧ (stopPrevious s).blocked = s.blocked ∧
    (stopPrevious s).fault = s.fault ∧ (stopPrevious s).stopGame = s.stopGame := by
  unfold stopPrevious
  cases hs : s.stopGame with
  | none => simp [hs]
  | some ch =>
    simp only
    by_cases hc : s.closed ch = true
    · simp [hc, hs]
    · simp [hc, Server.close, hs]

theorem startGame_blocked (s : Server) (fails infoFails : String → Bool) (r1 r2 : Fin 2) :
    (startGame s fails infoFails r1 r2).blocked =
      (s.blocked || (broadcastToAll s.clients fails).any (fun c => infoFails c.id)) := by
  obtain ⟨hc, -, -, hb, -⟩ := stopPrevious_frame s
  unfold startGame
  simp only [hb, hc]
  cases h1 : s.blocked with
  | true => simp [hb]
  | false =>
    cases h2 : (broadcastToAll s.clients fails).any (fun c => infoFails c.id) with
    | true => simp
    | false => simp [hb, h1]

theorem startGame_returned (s : Server) (fails infoFails : String → Bool) (r1 r2 : Fin 2)
    (h : (startGame s fails infoFails r1 r2).blocked = false) :
    s.blocked = false ∧
    (broadcastToAll s.clients fails).any (fun c => infoFails c.id) = false ∧
    (startGame s fails infoFails r1 r2).clients = broadcastToAll s.clients fails ∧
    (startGame s fails infoFails r1 r2).game =
      some (newGame (broadcastToAll s.clients fails) r1 r2) ∧
    (startGame s fails infoFails r1 r2).loops = s.loops ++ [(stopPrevious s).chans.length] := by
  rw [startGame_blocked] at h
  simp only [Bool.or_eq_false_iff] at h
  obtain ⟨h1, h2⟩ := h
  obtain ⟨hc, -, hl, hb, -⟩ := stopPrevious_frame s
  unfold startGame
  simp only [hb, h1, hc, h2, hl]
  simp

theorem startGame_parked (s : Server) (fails infoFails : String → Bool) (r1 r2 : Fin 2)
    (h : (startGame s fails infoFails r1 r2).blocked = true) :
    (startGame s fails infoFails r1 r2).game = s.game ∧
    (startGame s fails infoFails r1 r2).loops = s.loops := by
  rw [startGame_blocked] at h
  obtain ⟨hc, hg, hl, hb, -⟩ := stopPrevious_frame s
  unfold startGame
  simp only [hb, hc]
  cases h1 : s.blocked with
  | true => simp [hg, hl]
  | false =>
    rw [h1] at h
    simp only [Bool.false_or] at h
    simp [h, hg, hl]

theorem startGame_game (s : Server) (fails infoFails : String → Bool) (r1 r2 : Fin 2)
    (h : (startGame s fails infoFails r1 r2).blocked = false) :
    (startGame s fails infoFails r1 r2).game =
      some (newGame (startGame s fails infoFails r1 r2).clients r1 r2) := by
  obtain ⟨-, -, hc, hg, -⟩ := startGame_returned s fails infoFails r1 r2 h
  rw [hg, hc]

/-! ## C1: paddle clamp invariant -/

/-- C1. Paddle clamp invariant: when `startGame` returns on a registry holding
a `player1` connection and another connection, it has installed a game whose
paddles have height 100 and y = 250, and after every finite sequence of
`paddleMovement` commands (any playerID, role and direction strings)
interleaved with ticks the game is still present and both paddles satisfy
`0 ≤ y ≤ GAME_HEIGHT - height`, that is `0 ≤ y ≤ 400`. -/
theorem paddle_clamp_invariant (s : Server) (fails infoFails : String → Bool) (r1 r2 : Fin 2)
    (steps : List Step)
    (hret : (startGame s fails infoFails r1 r2).blocked = false)
    (h1 : ∃ c ∈ (startGame s fails infoFails r1 r2).clients, c.role = "player1")
    (h2 : ∃ c ∈ (startGame s fails infoFails r1 r2).clients, c.role ≠ "player1") :
    ∃ g0 g, (startGame s fails infoFails r1 r2).game = some g0 ∧
      g0.Paddle1.Height = 100 ∧ g0.Paddle1.Y = 250 ∧
      g0.Paddle2.Height = 100 ∧ g0.Paddle2.Y = 250 ∧
      run (some g0) steps = some g ∧
      0 ≤ g.Paddle1.Y ∧ g.Paddle1.Y ≤ GAME_HEIGHT - g.Paddle1.Height ∧ g.Paddle1.Y ≤ 400 ∧
      0 ≤ g.Paddle2.Y ∧ g.Paddle2.Y ≤ GAME_HEIGHT - g.Paddle2.Height ∧ g.Paddle2.Y ≤ 400 := by
  have hg := startGame_game s fails infoFails r1 r2 hret
  obtain ⟨-, y1, -, hh1, -⟩ :=
    (foldl_assignPaddle_start (startGame s fails infoFails r1 r2).clients
      (zeroPaddle, zeroPaddle)).1 h1
  obtain ⟨-, y2, -, hh2, -⟩ :=
    (foldl_assignPaddle_start (startGame s fails infoFails r1 r2).clients
      (zeroPaddle, zeroPaddle)).2 h2
  have hinv : PaddlesClamped (newGame (startGame s fails infoFails r1 r2).clients r1 r2) := by
    have e1 : (newGame (startGame s fails infoFails r1 r2).clients r1 r2).Paddle1 =
        ((startGame s fails infoFails r1 r2).clients.foldl assignPaddle
          (zeroPaddle, zeroPaddle)).1 := rfl
    have e2 : (newGame (startGame s fails infoFails r1 r2).clients r1 r2).Paddle2 =
        ((startGame s fails infoFails r1 r2).clients.foldl assignPaddle
          (zeroPaddle, zeroPaddle)).2 := rfl
    unfold PaddlesClamped
    rw [e1, e2, hh1, hh2, y1, y2]
    norm_num
  obtain ⟨g, hrun, c1, c2, c3, c4, c5, c6⟩ := PaddlesClamped_run steps _ hinv
  refine ⟨_, g, hg, hh1, y1, hh2, y2, hrun, c2, ?_, c3, c5, ?_, c6⟩
  · simp only [GAME_HEIGHT, c1]; omega
  · simp only [GAME_HEIGHT, c4]; omega

/-- C1 at a concrete input: the two-player registry and `sampleSteps`. -/
theorem paddle_clamp_invariant_witness :
    ((startGame twoPlayers allDelivered allDelivered 0 1).blocked = false ∧
     (∃ c ∈ (startGame twoPlayers allDelivered allDelivered 0 1).clients, c.role = "player1") ∧
     (∃ c ∈ (startGame twoPlayers allDelivered allDelivered 0 1).clients,
        c.role ≠ "player1")) ∧
    ∃ g0 g, (startGame twoPlayers allDelivered allDelivered 0 1).game = some g0 ∧
      g0.Paddle1.Height = 100 ∧ g0.Paddle1.Y = 250 ∧
      g0.Paddle2.Height = 100 ∧ g0.Paddle2.Y = 250 ∧
      run (some g0) sampleSteps = some g ∧
      0 ≤ g.Paddle1.Y ∧ g.Paddle1.Y ≤ GAME_HEIGHT - g.Paddle1.Height ∧ g.Paddle1.Y ≤ 400 ∧
      0 ≤ g.Paddle2.Y ∧ g.Paddle2.Y ≤ GAME_HEIGHT - g.Paddle2.Height ∧ g.Paddle2.Y ≤ 400 :=
  ⟨⟨by decide, by decide, by decide⟩,
   paddle_clamp_invariant twoPlayers allDelivered allDelivered 0 1 sampleSteps (by decide)
     (by decide) (by decide)⟩

/-! ## C2: scoring rule -/

theorem collisionwithwall_left (state : Gamestate) (r1 r2 : Fin 2)
    (h : state.Ball.X ≤ BALL_RADIUS) :
    collisionwithwall state r1 r2 =
      { state with Score := { state.Score with Player2 := wrapInt (state.Score.Player2 + 1) },
                   Ball := Ballcreation r1 r2 } := by
  unfold collisionwithwall
  simp only
  split_ifs <;> simp_all

theorem collisionwithwall_right (state : Gamestate) (r1 r2 : Fin 2)
    (h1 : ¬ state.Ball.X ≤ BALL_RADIUS) (h2 : state.Ball.X ≥ GAME_WIDTH - BALL_RADIUS) :
    collisionwithwall state r1 r2 =
      { state with Score := { state.Score with Player1 := wrapInt (state.Score.Player1 + 1) },
                   Ball := Ballcreation r1 r2 } := by
  unfold collisionwithwall
  simp only
  split_ifs <;> simp_all

theorem collisionwithpaddle_midfield (state : Gamestate)
    (hx1 : state.Paddle1.X = 0) (hw1 : state.Paddle1.Width = 25) (hx2 : state.Paddle2.X = 475)
    (h1 : 37 < state.Ball.X) (h2 : state.Ball.X < 463) :
    collisionwithpaddle state = state := by
  have e1 : wrapInt (wrapInt (0 + 25) + 12) = 37 := by decide
  have e2 : wrapInt (475 - 12) = 463 := by decide
  have n1 : hitPaddle1 state = false := by
    simp only [hitPaddle1, hx1, hw1, BALL_RADIUS, e1]
    have : ¬ state.Ball.X ≤ 37 := by omega
    simp [this]
  have n2 : hitPaddle2 state = false := by
    simp only [hitPaddle2, hx2, BALL_RADIUS, e2]
    have : ¬ state.Ball.X ≥ 463 := by omega
    simp [this]
  simp [collisionwithpaddle, bouncePaddle1, bouncePaddle2, n1, n2]

/-- C2 fails as stated: on a session-start court whose advanced ball reaches
x = 12 while `Score.Player2` is the largest `int`, the tick does not increase
`Score.Player2` by 1: the increment wraps to the smallest `int`. -/
theorem scoring_rule_counterexample :
    scoreAtMax.Paddle1.X = 0 ∧ scoreAtMax.Paddle1.Width = 25 ∧
    scoreAtMax.Paddle2.X = 475 ∧ scoreAtMax.Paddle2.Width = 25 ∧
    (updateball scoreAtMax.Ball).X ≤ BALL_RADIUS ∧
    (tick scoreAtMax 0 0).Score.Player2 = -9223372036854775808 ∧
    ¬ ((tick scoreAtMax 0 0).Score.Player2 = scoreAtMax.Score.Player2 + 1) := by
  decide

/-- C2, amended. Scoring rule over one tick: for every game state whose paddles
have the session-start x positions (paddle1 x = 0 and width 25, paddle2
x = 475) and every random draw, if the advanced ball has `x ≤ BALL_RADIUS`
then at the end of the tick `Score.Player2` is `wrapInt (Score.Player2 + 1)`,
which is `Score.Player2 + 1` whenever the score is an `int` other than the
largest one, `Score.Player1` is unchanged, and the ball is at (250, 250) with
speed 1; symmetrically for `x ≥ GAME_WIDTH - BALL_RADIUS` and `Score.Player1`. -/
theorem scoring_rule (g : Gamestate) (r1 r2 : Fin 2)
    (hx1 : g.Paddle1.X = 0) (hw1 : g.Paddle1.Width = 25) (hx2 : g.Paddle2.X = 475) :
    ((updateball g.Ball).X ≤ BALL_RADIUS →
      (tick g r1 r2).Score.Player2 = wrapInt (g.Score.Player2 + 1) ∧
      (isInt g.Score.Player2 → g.Score.Player2 ≠ maxInt →
        (tick g r1 r2).Score.Player2 = g.Score.Player2 + 1) ∧
      (tick g r1 r2).Score.Player1 = g.Score.Player1 ∧
      (tick g r1 r2).Ball.X = 250 ∧ (tick g r1 r2).Ball.Y = 250 ∧
      (tick g r1 r2).Ball.Speed = 1) ∧
    ((updateball g.Ball).X ≥ GAME_WIDTH - BALL_RADIUS →
      (tick g r1 r2).Score.Player1 = wrapInt (g.Score.Player1 + 1) ∧
      (isInt g.Score.Player1 → g.Score.Player1 ≠ maxInt →
        (tick g r1 r2).Score.Player1 = g.Score.Player1 + 1) ∧
      (tick g r1 r2).Score.Player2 = g.Score.Player2 ∧
      (tick g r1 r2).Ball.X = 250 ∧ (tick g r1 r2).Ball.Y = 250 ∧
      (tick g r1 r2).Ball.Speed = 1) := by
  constructor
  · intro h
    have hw := collisionwithwall_left { g with Ball := updateball g.Ball } r1 r2 h
    have hp := collisionwithpaddle_midfield
      (collisionwithwall { g with Ball := updateball g.Ball } r1 r2)
      (by rw [hw]; exact hx1) (by rw [hw]; exact hw1) (by rw [hw]; exact hx2)
      (by rw [hw]; simp [Ballcreation]) (by rw [hw]; simp [Ballcreation])
    have ht : tick g r1 r2 =
        { g with Score := { g.Score with Player2 := wrapInt (g.Score.Player2 + 1) },
                 Ball := Ballcreation r1 r2 } := by
      unfold tick
      rw [hp, hw]
    rw [ht]
    refine ⟨rfl, ?_, rfl, rfl, rfl, rfl⟩
    intro hi hm
    obtain ⟨lo, hi⟩ := hi
    simp only [minInt, maxInt, ne_eq] at lo hi hm
    exact wrapInt_eq_self (by simp only [minInt]; omega) (by simp only [maxInt]; omega)
  · intro h
    have hn : ¬ (updateball g.Ball).X ≤ BALL_RADIUS := by
      simp only [GAME_WIDTH, BALL_RADIUS] at h ⊢
      omega
    have hw := collisionwithwall_right { g with Ball := updateball g.Ball } r1 r2 hn h
    have hp := collisionwithpaddle_midfield
      (collisionwithwall { g with Ball := updateball g.Ball } r1 r2)
      (by rw [hw]; exact hx1) (by rw [hw]; exact hw1) (by rw [hw]; exact hx2)
      (by rw [hw]; simp [Ballcreation]) (by rw [hw]; simp [Ballcreation])
    have ht : tick g r1 r2 =
        { g with Score := { g.Score with Player1 := wrapInt (g.Score.Player1 + 1) },
                 Ball := Ballcreation r1 r2 } := by
      unfold tick
      rw [hp, hw]
    rw [ht]
    refine ⟨rfl, ?_, rfl, rfl, rfl, rfl⟩
    intro hi hm
    obtain ⟨lo, hi⟩ := hi
    simp only [minInt, maxInt, ne_eq] at lo hi hm
    exact wrapInt_eq_self (by simp only [minInt]; omega) (by simp only [maxInt]; omega)

/-- C2 (amended) at a concrete input: the left goal at score 3 : 4. -/
theorem scoring_rule_witness :
    (leftGoalState.Paddle1.X = 0 ∧ leftGoalState.Paddle1.Width = 25 ∧
      leftGoalState.Paddle2.X = 475 ∧ (updateball leftGoalState.Ball).X ≤ BALL_RADIUS ∧
      isInt leftGoalState.Score.Player2 ∧ leftGoalState.Score.Player2 ≠ maxInt) ∧
    (tick leftGoalState 1 0).Score.Player2 = 5 ∧
    (tick leftGoalState 1 0).Score.Player1 = 3 ∧
    (tick leftGoalState 1 0).Ball.X = 250 ∧ (tick leftGoalState 1 0).Ball.Y = 250 ∧
    (tick leftGoalState 1 0).Ball.Speed = 1 :=
  have h := (scoring_rule leftGoalState 1 0 (by decide) (by decide) (by decide)).1 (by decide)
  ⟨by decide, h.2.1 (by decide) (by decide), h.2.2⟩

/-! ## C3: ball containment -/

theorem collisionwithwall_y (state : Gamestate) (r1 r2 : Fin 2) :
    BALL_RADIUS ≤ (collisionwithwall state r1 r2).Ball.Y ∧
    (collisionwithwall state r1 r2).Ball.Y ≤ GAME_HEIGHT - BALL_RADIUS := by
  unfold collisionwithwall
  simp only [BALL_RADIUS, GAME_HEIGHT, GAME_WIDTH, Ballcreation]
  split_ifs <;> simp_all
  all_goals omega

/-- C3. Ball containment: for every game state (any ball position, speed and
direction, any paddles, any score) and every random draw, after one tick
(`updateball`, `collisionwithwall`, `collisionwithpaddle`) the ball satisfies
`BALL_RADIUS ≤ y ≤ GAME_HEIGHT - BALL_RADIUS`, that is `12 ≤ y ≤ 488`. -/
theorem ball_containment (g : Gamestate) (r1 r2 : Fin 2) :
    BALL_RADIUS ≤ (tick g r1 r2).Ball.Y ∧ (tick g r1 r2).Ball.Y ≤ GAME_HEIGHT - BALL_RADIUS ∧
    12 ≤ (tick g r1 r2).Ball.Y ∧ (tick g r1 r2).Ball.Y ≤ 488 := by
  have hy := (collisionwithpaddle_frame
    (collisionwithwall { g with Ball := updateball g.Ball } r1 r2)).2.2.2.1
  obtain ⟨a, b⟩ := collisionwithwall_y { g with Ball := updateball g.Ball } r1 r2
  unfold tick
  rw [hy]
  simp only [BALL_RADIUS, GAME_HEIGHT] at a b ⊢
  omega

/-! ## C4: ownership enforcement -/

/-- C4. Ownership enforcement: for every active game state, every role in
{player1, player2}, every direction string and every playerID that differs
from the Id stored in that role's paddle, `paddleMovement` leaves the entire
game state unchanged. -/
theorem ownership_enforcement (g : Gamestate) (playerID role direction : String)
    (hrole : role = "player1" ∨ role = "player2")
    (hid : (role = "player1" → g.Paddle1.Id ≠ playerID) ∧
           (role = "player2" → g.Paddle2.Id ≠ playerID)) :
    paddleMovement (some g) playerID role direction = some g := by
  rcases hrole with rfl | rfl
  · have h := hid.1 rfl
    simp [paddleMovement, h]
  · have h := hid.2 rfl
    simp [paddleMovement, h]

/-- C4 at a concrete input: player "a" (owner of paddle1) tries to move
paddle2 of `rallyState`, owned by "b". -/
theorem ownership_enforcement_witness :
    (("player2" = "player1" ∨ "player2" = "player2") ∧
      ("player2" = "player1" → rallyState.Paddle1.Id ≠ "a") ∧
      ("player2" = "player2" → rallyState.Paddle2.Id ≠ "a")) ∧
    paddleMovement (some rallyState) "a" "player2" "up" = some rallyState :=
  ⟨by decide, ownership_enforcement rallyState "a" "player2" "up" (by decide) (by decide)⟩

/-! ## C5: role assignment on join -/

theorem mapStore_fresh (clients : List Client) (client : Client)
    (hfresh : ∀ c ∈ clients, c.id ≠ client.id) :
    mapStore clients client = client :: clients := by
  unfold mapStore
  congr 1
  apply List.filter_eq_self.mpr
  intro c hc
  simpa using hfresh c hc

theorem mapStore_length_le (clients : List Client) (client : Client) :
    (mapStore clients client).length ≤ clients.length + 1 := by
  unfold mapStore
  simp only [List.length_cons, Nat.add_le_add_iff_right]
  exact List.length_filter_le _ _

theorem broadcastToAll_length_le (clients : List Client) (fails : String → Bool) :
    (broadcastToAll clients fails).length ≤ clients.length :=
  List.length_filter_le _ _

theorem startGame_clients (s : Server) (fails infoFails : String → Bool) (r1 r2 : Fin 2) :
    (startGame s fails infoFails r1 r2).clients =
      if s.blocked then s.clients else broadcastToAll s.clients fails := by
  obtain ⟨hc, -, -, hb, -⟩ := stopPrevious_frame s
  unfold startGame
  simp only [hb, hc]
  cases h1 : s.blocked with
  | true => simp [hc]
  | false =>
    cases h2 : (broadcastToAll s.clients fails).any (fun c => infoFails c.id) with
    | true => simp
    | false => simp

theorem startGame_clients_length_le (s : Server) (fails infoFails : String → Bool)
    (r1 r2 : Fin 2) :
    (startGame s fails infoFails r1 r2).clients.length ≤ s.clients.length := by
  rw [startGame_clients]
  split_ifs
  · exact Nat.le_refl _
  · exact broadcastToAll_length_le _ _

theorem broadcastToAll_delivered (clients : List Client) :
    broadcastToAll clients allDelivered = clients := by
  unfold broadcastToAll allDelivered
  simp

theorem broadcastToAll_mem (clients : List Client) (w : String → Bool) (c : Client)
    (h : c ∈ broadcastToAll clients w) : c ∈ clients :=
  (List.mem_filter.mp h).1

theorem pruneAfterJoin_length_le (clients : List Client) (w1 w2 w3 : String → Bool) :
    (pruneAfterJoin clients w1 w2 w3).length ≤ clients.length := by
  have h1 := broadcastToAll_length_le clients w1
  have h2 := broadcastToAll_length_le (broadcastToAll clients w1) w2
  unfold pruneAfterJoin
  simp only
  split_ifs
  · exact (broadcastToAll_length_le _ _).trans (by omega)
  · omega
  · exact (broadcastToAll_length_le _ _).trans (by omega)
  · omega

theorem pruneAfterJoin_mem (clients : List Client) (w1 w2 w3 : String → Bool) (c : Client)
    (h : c ∈ pruneAfterJoin clients w1 w2 w3) : c ∈ clients := by
  unfold pruneAfterJoin at h
  simp only at h
  split_ifs at h
  · exact broadcastToAll_mem _ _ _ (broadcastToAll_mem _ _ _ (broadcastToAll_mem _ _ _ h))
  · exact broadcastToAll_mem _ _ _ (broadcastToAll_mem _ _ _ h)
  · exact broadcastToAll_mem _ _ _ (broadcastToAll_mem _ _ _ h)
  · exact broadcastToAll_mem _ _ _ h

theorem pruneAfterJoin_delivered (clients : List Client) :
    pruneAfterJoin clients allDelivered allDelivered allDelivered = clients := by
  unfold pruneAfterJoin
  simp only [broadcastToAll_delivered]
  split_ifs <;> rfl

theorem manager_addClient_clients (s : Server) (client : Client)
    (w1 w2 w3 info : String → Bool) (r1 r2 : Fin 2)
    (hb : s.blocked = false) (hroom : s.clients.length < MAX_PLAYERS) :
    (manager s (.addClient client w1 w2 w3 info r1 r2)).clients =
      pruneAfterJoin (mapStore s.clients (assignRole s.clients.length client)) w1 w2 w3 := by
  have hfull : ¬ s.clients.length ≥ MAX_PLAYERS := by omega
  unfold manager addClientLocked pruneAfterJoin
  simp only [hb, if_neg hfull, Bool.false_eq_true, if_false]
  split_ifs with ha hc hd
  · rw [startGame_clients]
    simp [hb]
  · rfl
  · rw [startGame_clients]
    simp [hb]
  · rfl

theorem manager_clients_length (s : Server) (e : Event)
    (h : s.clients.length ≤ MAX_PLAYERS) : (manager s e).clients.length ≤ MAX_PLAYERS := by
  cases hb : s.blocked with
  | true =>
    cases e <;> simp only [manager, hb, if_true] <;> exact h
  | false =>
    cases e with
    | addClient client w1 w2 w3 info r1 r2 =>
      by_cases hroom : s.clients.length < MAX_PLAYERS
      · rw [manager_addClient_clients s client w1 w2 w3 info r1 r2 hb hroom]
        have h1 := mapStore_length_le s.clients (assignRole s.clients.length client)
        have h2 := pruneAfterJoin_length_le
          (mapStore s.clients (assignRole s.clients.length client)) w1 w2 w3
        simp only [MAX_PLAYERS] at hroom ⊢
        omega
      · have hfull : s.clients.length ≥ MAX_PLAYERS := by omega
        simp only [manager, hb, addClientLocked, if_pos hfull, Bool.false_eq_true, if_false]
        exact h
    | removeClient client w =>
      simp only [manager, hb, Bool.false_eq_true, if_false]
      exact (broadcastToAll_length_le _ _).trans ((List.length_filter_le _ _).trans h)
    | broadcast w =>
      simp only [manager, hb, Bool.false_eq_true, if_false]
      exact (broadcastToAll_length_le _ _).trans h

/-- C5. Role assignment by the join step of `manager` (the `addClient` case),
for a connection whose id is not yet registered.  In the locked section:
joining an empty registry registers it with role player1; joining a registry
with exactly one member registers it with role player2; joining a registry
that already holds `MAX_PLAYERS` members is rejected, assigns no role and
leaves the registry (indeed the whole server state) unchanged; so a registry
of at most `MAX_PLAYERS = 2` members stays so, across the join step and across
any `manager` event.  For the whole `addClient` case of `manager` on a server
with room left (and `clientsMu` free): the registry it leaves is the one of the
locked section, with the joining connection stored under its assigned role,
minus the members pruned by the broadcasts that follow; it is exactly that
registry when every write succeeds; and whatever the writes, a member
registered under the joining id is the joining connection with role player1
(empty registry) or player2 (one member). -/
theorem role_assignment (clients : List Client) (client : Client)
    (hfresh : ∀ c ∈ clients, c.id ≠ client.id) :
    (clients = [] →
      addClientLocked clients client =
        ([{ client with role := "player1" }], some { client with role := "player1" })) ∧
    (clients.length = 1 →
      addClientLocked clients client =
        ({ client with role := "player2" } :: clients, some { client with role := "player2" })) ∧
    (MAX_PLAYERS ≤ clients.length →
      addClientLocked clients client = (clients, none) ∧
      ∀ (s : Server) (w1 w2 w3 info : String → Bool) (r1 r2 : Fin 2), s.clients = clients →
        manager s (.addClient client w1 w2 w3 info r1 r2) = s) ∧
    (clients.length ≤ MAX_PLAYERS →
      (addClientLocked clients client).1.length ≤ MAX_PLAYERS ∧
      ∀ (s : Server) (e : Event), s.clients = clients →
        (manager s e).clients.length ≤ MAX_PLAYERS) ∧
    (∀ (s : Server) (w1 w2 w3 info : String → Bool) (r1 r2 : Fin 2),
      s.blocked = false → s.clients = clients → clients.length < MAX_PLAYERS →
      (manager s (.addClient client w1 w2 w3 info r1 r2)).clients =
        pruneAfterJoin (addClientLocked clients client).1 w1 w2 w3 ∧
      (manager s (.addClient client allDelivered allDelivered allDelivered info r1 r2)).clients =
        (addClientLocked clients client).1 ∧
      (clients = [] →
        (manager s (.addClient client allDelivered allDelivered allDelivered info r1 r2)).clients =
          [{ client with role := "player1" }] ∧
        ∀ c ∈ (manager s (.addClient client w1 w2 w3 info r1 r2)).clients,
          c.id = client.id → c = { client with role := "player1" }) ∧
      (clients.length = 1 →
        (manager s (.addClient client allDelivered allDelivered allDelivered info r1 r2)).clients =
          { client with role := "player2" } :: clients ∧
        ∀ c ∈ (manager s (.addClient client w1 w2 w3 info r1 r2)).clients,
          c.id = client.id → c = { client with role := "player2" })) := by
  have hlocked1 : clients = [] →
      addClientLocked clients client =
        ([{ client with role := "player1" }], some { client with role := "player1" }) := by
    rintro rfl
    simp [addClientLocked, assignRole, mapStore]
  have hlocked2 : clients.length = 1 →
      addClientLocked clients client =
        ({ client with role := "player2" } :: clients,
         some { client with role := "player2" }) := by
    intro h1
    have hf : ∀ c ∈ clients, c.id ≠ ({ client with role := "player2" } : Client).id := hfresh
    simp only [addClientLocked, MAX_PLAYERS, h1, assignRole]
    simp [mapStore_fresh clients { client with role := "player2" } hf]
  refine ⟨hlocked1, hlocked2, ?_, ?_, ?_⟩
  · intro hfull
    have e : addClientLocked clients client = (clients, none) := by
      simp only [addClientLocked]
      rw [if_pos hfull]
    refine ⟨e, ?_⟩
    rintro s w1 w2 w3 info r1 r2 rfl
    simp only [manager, e]
    split_ifs <;> rfl
  · intro hle
    constructor
    · simp only [addClientLocked]
      split_ifs with hfull
      · exact hle
      · have := mapStore_length_le clients (assignRole clients.length client)
        simp only [MAX_PLAYERS, ge_iff_le, not_le] at hfull ⊢
        omega
    · rintro s e rfl
      exact manager_clients_length s e hle
  · rintro s w1 w2 w3 info r1 r2 hb rfl hroom
    have hfull : ¬ s.clients.length ≥ MAX_PLAYERS := by omega
    have hl : (addClientLocked s.clients client).1 =
        mapStore s.clients (assignRole s.clients.length client) := by
      simp only [addClientLocked, if_neg hfull]
    have hgen : ∀ v1 v2 v3 : String → Bool,
        (manager s (.addClient client v1 v2 v3 info r1 r2)).clients =
          pruneAfterJoin (addClientLocked s.clients client).1 v1 v2 v3 := by
      intro v1 v2 v3
      rw [hl]
      exact manager_addClient_clients s client v1 v2 v3 info r1 r2 hb hroom
    have hdel : (manager s
        (.addClient client allDelivered allDelivered allDelivered info r1 r2)).clients =
          (addClientLocked s.clients client).1 := by
      rw [hgen, pruneAfterJoin_delivered]
    have hrole : ∀ (c0 : Client) (rest : List Client),
        (addClientLocked s.clients client).1 = c0 :: rest → c0.id = client.id →
        (∀ x ∈ rest, x.id ≠ client.id) →
        ∀ c ∈ (manager s (.addClient client w1 w2 w3 info r1 r2)).clients,
          c.id = client.id → c = c0 := by
      intro c0 rest he _ hrest c hc hid
      rw [hgen, he] at hc
      rcases List.mem_cons.mp (pruneAfterJoin_mem _ _ _ _ _ hc) with h | h
      · exact h
      · exact absurd hid (hrest c h)
    refine ⟨hgen w1 w2 w3, hdel, ?_, ?_⟩
    · intro hnil
      have he := congrArg Prod.fst (hlocked1 hnil)
      simp only at he
      refine ⟨by rw [hdel, he], hrole _ [] he rfl (fun x hx => absurd hx (List.not_mem_nil x))⟩
    · intro hone
      have he := congrArg Prod.fst (hlocked2 hone)
      simp only at he
      exact ⟨by rw [hdel, he], hrole _ s.clients he rfl hfresh⟩

/-- C5 at a concrete input: "b" joins a server whose registry holds only "a",
with every write succeeding. -/
theorem role_assignment_witness :
    ((∀ c ∈ [({ id := "a", role := "player1" } : Client)], c.id ≠ "b") ∧
      ({ Server.init with clients := [{ id := "a", role := "player1" }] } : Server).blocked =
        false) ∧
    addClientLocked [{ id := "a", role := "player1" }] { id := "b", role := "" } =
      ([{ id := "b", role := "player2" }, { id := "a", role := "player1" }],
       some { id := "b", role := "player2" }) ∧
    (manager { Server.init with clients := [{ id := "a", role := "player1" }] }
      (.addClient { id := "b", role := "" } allDelivered allDelivered allDelivered
        allDelivered 0 0)).clients =
      [{ id := "b", role := "player2" }, { id := "a", role := "player1" }] :=
  have h := role_assignment [{ id := "a", role := "player1" }] { id := "b", role := "" }
    (by decide)
  ⟨by decide, h.2.1 rfl,
   ((h.2.2.2.2 { Server.init with clients := [{ id := "a", role := "player1" }] }
      allDelivered allDelivered allDelivered allDelivered 0 0 rfl rfl (by decide)).2.2.2
        rfl).1⟩

/-! ## C6: role uniqueness -/

/-- C6 fails on the code: after "a" joins (player1), "b" joins (player2), "a"
leaves and "c" joins, every joining id being fresh, the registry holds "b" and
"c", both with role player2, and no connection with role player1. -/
theorem role_uniqueness_violated :
    (rejoinEvents.foldl manager Server.init).clients =
      [{ id := "c", role := "player2" }, { id := "b", role := "player2" }] ∧
    ((rejoinEvents.foldl manager Server.init).clients.filter
      (fun c => c.role = "player2")).length = 2 ∧
    ((rejoinEvents.foldl manager Server.init).clients.filter
      (fun c => c.role = "player1")).length = 0 := by
  decide

/-! ## C7: speed monotonicity -/

theorem updateball_fields (b : Ball) :
    (updateball b).Speed = b.Speed ∧ (updateball b).Dx = b.Dx ∧ (updateball b).Dy = b.Dy ∧
    (updateball b).X = wrapInt (b.X + wrapInt (b.Dx * b.Speed)) ∧
    (updateball b).Y = wrapInt (b.Y + wrapInt (b.Dy * b.Speed)) := by
  simp [updateball]

theorem collisionwithwall_nogoal (state : Gamestate) (r1 r2 : Fin 2)
    (h1 : BALL_RADIUS < state.Ball.X) (h2 : state.Ball.X < GAME_WIDTH - BALL_RADIUS) :
    (collisionwithwall state r1 r2).Ball.X = state.Ball.X ∧
    (collisionwithwall state r1 r2).Ball.Speed = state.Ball.Speed ∧
    (collisionwithwall state r1 r2).Ball.Dx = state.Ball.Dx ∧
    (collisionwithwall state r1 r2).Score = state.Score := by
  simp only [BALL_RADIUS, GAME_WIDTH] at h1 h2
  have n1 : ¬ state.Ball.X ≤ 12 := by omega
  have n2 : ¬ state.Ball.X ≥ 500 - 12 := by omega
  unfold collisionwithwall
  simp only [BALL_RADIUS, GAME_WIDTH, GAME_HEIGHT]
  split_ifs <;> simp_all

theorem afterWall_nogoal (g : Gamestate) (r1 r2 : Fin 2)
    (h1 : BALL_RADIUS < (updateball g.Ball).X)
    (h2 : (updateball g.Ball).X < GAME_WIDTH - BALL_RADIUS) :
    (afterWall g r1 r2).Ball.X = (updateball g.Ball).X ∧
    (afterWall g r1 r2).Ball.Speed = g.Ball.Speed ∧
    (afterWall g r1 r2).Ball.Dx = g.Ball.Dx ∧
    (afterWall g r1 r2).Score = g.Score ∧
    (afterWall g r1 r2).Paddle1 = g.Paddle1 ∧
    (afterWall g r1 r2).Paddle2 = g.Paddle2 := by
  obtain ⟨a1, a2, a3, a4⟩ :=
    collisionwithwall_nogoal { g with Ball := updateball g.Ball } r1 r2 h1 h2
  obtain ⟨p1, p2⟩ := collisionwithwall_paddles { g with Ball := updateball g.Ball } r1 r2
  obtain ⟨u1, u2, -⟩ := updateball_fields g.Ball
  unfold afterWall
  exact ⟨a1, a2.trans u1, a3.trans u2, a4, p1, p2⟩

theorem tick_eq_afterWall (g : Gamestate) (r1 r2 : Fin 2) :
    tick g r1 r2 = bouncePaddle2 (bouncePaddle1 (afterWall g r1 r2)) := rfl

/-- With paddle1 at x = 0, width 25 and paddle2 at x = 475, the player2 block
never fires on the state the player1 block leaves after a hit. -/
theorem no_double_hit (w : Gamestate)
    (hx1 : w.Paddle1.X = 0) (hw1 : w.Paddle1.Width = 25) (hx2 : w.Paddle2.X = 475)
    (h : hitPaddle1 w = true) : hitPaddle2 (bouncePaddle1 w) = false := by
  have e1 : wrapInt 25 = 25 := by decide
  have e2 : wrapInt 37 = 37 := by decide
  have e3 : wrapInt 463 = 463 := by decide
  simp [bouncePaddle1, h, hitPaddle2, hx1, hw1, hx2, e1, e2, e3]

theorem hits_exclusive (w : Gamestate) : ¬ (hitPaddle1 w = true ∧ hitPaddle2 w = true) := by
  simp only [hitPaddle1, hitPaddle2, Bool.and_eq_true, decide_eq_true_eq]
  omega

theorem tick_speed_cases (g : Gamestate) (r1 r2 : Fin 2)
    (hx1 : g.Paddle1.X = 0) (hw1 : g.Paddle1.Width = 25) (hx2 : g.Paddle2.X = 475)
    (h1 : BALL_RADIUS < (updateball g.Ball).X)
    (h2 : (updateball g.Ball).X < GAME_WIDTH - BALL_RADIUS) :
    (hitPaddle1 (afterWall g r1 r2) = true ∨ hitPaddle2 (afterWall g r1 r2) = true →
      (tick g r1 r2).Ball.Speed = wrapInt (g.Ball.Speed + 1)) ∧
    (hitPaddle1 (afterWall g r1 r2) = false ∧ hitPaddle2 (afterWall g r1 r2) = false →
      (tick g r1 r2).Ball.Speed = g.Ball.Speed) := by
  obtain ⟨-, sp, -, -, p1, p2⟩ := afterWall_nogoal g r1 r2 h1 h2
  have hx1w : (afterWall g r1 r2).Paddle1.X = 0 := by rw [p1]; exact hx1
  have hw1w : (afterWall g r1 r2).Paddle1.Width = 25 := by rw [p1]; exact hw1
  have hx2w : (afterWall g r1 r2).Paddle2.X = 475 := by rw [p2]; exact hx2
  rw [tick_eq_afterWall]
  constructor
  · intro h
    by_cases c1 : hitPaddle1 (afterWall g r1 r2) = true
    · have c2 := no_double_hit _ hx1w hw1w hx2w c1
      simp only [bouncePaddle2, c2]
      simp [bouncePaddle1, c1, sp]
    · have c2 : hitPaddle2 (afterWall g r1 r2) = true := by tauto
      have e : bouncePaddle1 (afterWall g r1 r2) = afterWall g r1 r2 := by
        simp [bouncePaddle1, c1]
      rw [e]
      simp [bouncePaddle2, c2, sp]
  · rintro ⟨c1, c2⟩
    have e : bouncePaddle1 (afterWall g r1 r2) = afterWall g r1 r2 := by
      simp [bouncePaddle1, c1]
    rw [e]
    simp [bouncePaddle2, c2, sp]

/-- C7 fails as stated: on a session-start court, a ball of the largest `int`
speed whose advanced position is (20, 250), so no goal fires, hits player1's
paddle; the tick wraps its speed to the smallest `int`: the speed is neither
unchanged nor increased by 1, and it decreases. -/
theorem speed_monotonicity_counterexample :
    speedAtMax.Paddle1.X = 0 ∧ speedAtMax.Paddle1.Width = 25 ∧ speedAtMax.Paddle1.Height = 100 ∧
    speedAtMax.Paddle2.X = 475 ∧ speedAtMax.Paddle2.Width = 25 ∧ speedAtMax.Paddle2.Height = 100 ∧
    12 < (updateball speedAtMax.Ball).X ∧ (updateball speedAtMax.Ball).X < 488 ∧
    hitPaddle1 (afterWall speedAtMax 0 0) = true ∧
    (tick speedAtMax 0 0).Ball.Speed = -9223372036854775808 ∧
    ¬ ((tick speedAtMax 0 0).Ball.Speed = speedAtMax.Ball.Speed + 1) ∧
    ¬ (speedAtMax.Ball.Speed ≤ (tick speedAtMax 0 0).Ball.Speed) := by
  decide

/-- C7, amended. Speed monotonicity: for every game state whose paddles have
the session-start x positions (paddle1 x = 0 and width 25, paddle2 x = 475)
and every random draw, in a tick in which no goal fires (the advanced ball has
`12 < x < 488`) the two paddle blocks never both fire; the speed becomes
`wrapInt (speed + 1)` when one paddle's hit condition holds and is unchanged
otherwise; so whenever the speed is an `int` other than the largest one it is
either unchanged or increased by exactly 1, increased by exactly 1 precisely
on a hit, and never decreases. -/
theorem speed_monotonicity (g : Gamestate) (r1 r2 : Fin 2)
    (hx1 : g.Paddle1.X = 0) (hw1 : g.Paddle1.Width = 25) (hx2 : g.Paddle2.X = 475)
    (h1 : BALL_RADIUS < (updateball g.Ball).X)
    (h2 : (updateball g.Ball).X < GAME_WIDTH - BALL_RADIUS) :
    (hitPaddle1 (afterWall g r1 r2) = true →
      hitPaddle2 (bouncePaddle1 (afterWall g r1 r2)) = false) ∧
    ¬ (hitPaddle1 (afterWall g r1 r2) = true ∧ hitPaddle2 (afterWall g r1 r2) = true) ∧
    (hitPaddle1 (afterWall g r1 r2) = true ∨ hitPaddle2 (afterWall g r1 r2) = true →
      (tick g r1 r2).Ball.Speed = wrapInt (g.Ball.Speed + 1)) ∧
    (hitPaddle1 (afterWall g r1 r2) = false ∧ hitPaddle2 (afterWall g r1 r2) = false →
      (tick g r1 r2).Ball.Speed = g.Ball.Speed) ∧
    (isInt g.Ball.Speed → g.Ball.Speed ≠ maxInt →
      ((tick g r1 r2).Ball.Speed = g.Ball.Speed ∨
        (tick g r1 r2).Ball.Speed = g.Ball.Speed + 1) ∧
      ((tick g r1 r2).Ball.Speed = g.Ball.Speed + 1 ↔
        (hitPaddle1 (afterWall g r1 r2) = true ∨ hitPaddle2 (afterWall g r1 r2) = true)) ∧
      g.Ball.Speed ≤ (tick g r1 r2).Ball.Speed) := by
  obtain ⟨-, -, -, -, p1, p2⟩ := afterWall_nogoal g r1 r2 h1 h2
  obtain ⟨hit, nohit⟩ := tick_speed_cases g r1 r2 hx1 hw1 hx2 h1 h2
  refine ⟨?_, hits_exclusive _, hit, nohit, ?_⟩
  · intro c1
    exact no_double_hit _ (by rw [p1]; exact hx1) (by rw [p1]; exact hw1)
      (by rw [p2]; exact hx2) c1
  · intro hi hm
    have e : wrapInt (g.Ball.Speed + 1) = g.Ball.Speed + 1 := by
      obtain ⟨lo, hi⟩ := hi
      simp only [minInt, maxInt, ne_eq] at lo hi hm
      exact wrapInt_eq_self (by simp only [minInt]; omega) (by simp only [maxInt]; omega)
    rw [e] at hit
    by_cases c : hitPaddle1 (afterWall g r1 r2) = true ∨ hitPaddle2 (afterWall g r1 r2) = true
    · have hs := hit c
      refine ⟨Or.inr hs, ⟨fun _ => c, fun _ => hs⟩, ?_⟩
      omega
    · have c' : hitPaddle1 (afterWall g r1 r2) = false ∧
          hitPaddle2 (afterWall g r1 r2) = false := by
        simpa using c
      have hs := nohit c'
      refine ⟨Or.inl hs, ⟨fun h => ?_, fun h => absurd h c⟩, ?_⟩
      · omega
      · omega

/-- C7 (amended) at a concrete input: a ball of speed 5 reaching player1's
paddle leaves the tick with speed 6. -/
theorem speed_monotonicity_witness :
    (incomingState.Paddle1.X = 0 ∧ incomingState.Paddle1.Width = 25 ∧
      incomingState.Paddle2.X = 475 ∧ BALL_RADIUS < (updateball incomingState.Ball).X ∧
      (updateball incomingState.Ball).X < GAME_WIDTH - BALL_RADIUS ∧
      isInt incomingState.Ball.Speed ∧ incomingState.Ball.Speed ≠ maxInt ∧
      hitPaddle1 (afterWall incomingState 0 0) = true) ∧
    (tick incomingState 0 0).Ball.Speed = 6 :=
  ⟨by decide,
   (speed_monotonicity incomingState 0 0 (by decide) (by decide) (by decide) (by decide)
      (by decide)).2.2.1 (Or.inl (by decide))⟩

/-! ## C8: the paddle-hit scenario -/

/-- C8 fails as stated: with the ball at (13, 250), dx = -1, speed 1 and
player1's paddle at x = 0, width 25, height 100, y = 200, the advanced ball is
at x = 12, so `collisionwithwall` scores a goal for player2 and respawns the
ball before the paddle test: the tick ends with the ball at (250, 250), speed
1 and score 0 : 1, not with x = 37, speed 2 and the score unchanged. -/
theorem paddle_hit_scenario_counterexample :
    scenarioAt13.Ball.X = 13 ∧ scenarioAt13.Ball.Y = 250 ∧ scenarioAt13.Ball.Dx = -1 ∧
    scenarioAt13.Ball.Speed = 1 ∧
    scenarioAt13.Paddle1.X = 0 ∧ scenarioAt13.Paddle1.Width = 25 ∧
    scenarioAt13.Paddle1.Height = 100 ∧ scenarioAt13.Paddle1.Y = 200 ∧
    (updateball scenarioAt13.Ball).X = 12 ∧
    (tick scenarioAt13 0 0).Ball.X = 250 ∧ (tick scenarioAt13 0 0).Ball.Y = 250 ∧
    (tick scenarioAt13 0 0).Ball.Speed = 1 ∧
    (tick scenarioAt13 0 0).Score = { Player1 := 0, Player2 := 1 } ∧
    ¬ ((tick scenarioAt13 0 0).Ball.X = 37) ∧
    ¬ ((tick scenarioAt13 0 0).Ball.Speed = scenarioAt13.Ball.Speed + 1) ∧
    ¬ ((tick scenarioAt13 0 0).Score = scenarioAt13.Score) := by
  decide

theorem collisionwithwall_idle (state : Gamestate) (r1 r2 : Fin 2)
    (hy1 : BALL_RADIUS < state.Ball.Y) (hy2 : state.Ball.Y < GAME_HEIGHT - BALL_RADIUS)
    (hx1 : BALL_RADIUS < state.Ball.X) (hx2 : state.Ball.X < GAME_WIDTH - BALL_RADIUS) :
    collisionwithwall state r1 r2 = state := by
  simp only [BALL_RADIUS, GAME_WIDTH, GAME_HEIGHT] at hy1 hy2 hx1 hx2
  have n1 : ¬ state.Ball.Y ≤ 12 := by omega
  have n2 : ¬ state.Ball.Y ≥ 500 - 12 := by omega
  have n3 : ¬ state.Ball.X ≤ 12 := by omega
  have n4 : ¬ state.Ball.X ≥ 500 - 12 := by omega
  unfold collisionwithwall
  simp only [BALL_RADIUS, GAME_WIDTH, GAME_HEIGHT, if_neg n1, if_neg n2, if_neg n3, if_neg n4]

/-- C8, amended. End-to-end scenario, for a ball at height 250 moving with
dx = -1 and an `int` speed s ≥ 1, player1's paddle at x = 0, width 25, height
100, y = 200 and player2's paddle at x = 475.  (a) From x = 13 the advanced
ball is at x = 13 - s ≤ 12, so the tick scores a goal for player2
(`Score.Player2` becomes `wrapInt (Score.Player2 + 1)`, `Score.Player1` is
unchanged) and respawns the ball at (250, 250) with speed 1.  (b) From
x = 13 + s, with s ≤ 62 and dy in {-1, 1}, the advanced ball is at x = 13 and
the tick leaves `ball.x = paddle1.x + width + BALL_RADIUS = 37`, dx = +1 and
speed = s + 1, with the score unchanged. -/
theorem paddle_hit_scenario (g : Gamestate) (r1 r2 : Fin 2) (s : Int)
    (hs1 : 1 ≤ s) (hs2 : s ≤ maxInt)
    (hY : g.Ball.Y = 250) (hDx : g.Ball.Dx = -1) (hS : g.Ball.Speed = s)
    (hp1 : g.Paddle1.X = 0 ∧ g.Paddle1.Width = 25 ∧ g.Paddle1.Height = 100 ∧ g.Paddle1.Y = 200)
    (hx2 : g.Paddle2.X = 475) :
    (g.Ball.X = 13 →
      (updateball g.Ball).X = 13 - s ∧
      (tick g r1 r2).Score.Player2 = wrapInt (g.Score.Player2 + 1) ∧
      (tick g r1 r2).Score.Player1 = g.Score.Player1 ∧
      (tick g r1 r2).Ball.X = 250 ∧ (tick g r1 r2).Ball.Y = 250 ∧
      (tick g r1 r2).Ball.Speed = 1) ∧
    (g.Ball.X = 13 + s → s ≤ 62 → (g.Ball.Dy = -1 ∨ g.Ball.Dy = 1) →
      (updateball g.Ball).X = 13 ∧
      (tick g r1 r2).Ball.X = g.Paddle1.X + g.Paddle1.Width + BALL_RADIUS ∧
      (tick g r1 r2).Ball.X = 37 ∧
      (tick g r1 r2).Ball.Dx = 1 ∧
      (tick g r1 r2).Ball.Speed = s + 1 ∧
      (tick g r1 r2).Score = g.Score) := by
  obtain ⟨x1, w1, hh1, y1⟩ := hp1
  obtain ⟨u1, u2, u3, u4, u5⟩ := updateball_fields g.Ball
  simp only [maxInt] at hs2
  constructor
  · intro hX
    have bx : (updateball g.Ball).X = 13 - s := by
      rw [u4, hX, hDx, hS]
      unfold wrapInt
      omega
    have hle : ({ g with Ball := updateball g.Ball } : Gamestate).Ball.X ≤ BALL_RADIUS := by
      simp only [BALL_RADIUS, bx]
      omega
    have hw := collisionwithwall_left { g with Ball := updateball g.Ball } r1 r2 hle
    have hp := collisionwithpaddle_midfield
      (collisionwithwall { g with Ball := updateball g.Ball } r1 r2)
      (by rw [hw]; exact x1) (by rw [hw]; exact w1) (by rw [hw]; exact hx2)
      (by rw [hw]; simp [Ballcreation]) (by rw [hw]; simp [Ballcreation])
    have ht : tick g r1 r2 =
        { g with Score := { g.Score with Player2 := wrapInt (g.Score.Player2 + 1) },
                 Ball := Ballcreation r1 r2 } := by
      unfold tick
      rw [hp, hw]
    rw [ht]
    exact ⟨bx, rfl, rfl, rfl, rfl, rfl⟩
  · intro hX hs3 hDy
    have bx : (updateball g.Ball).X = 13 := by
      rw [u4, hX, hDx, hS]
      unfold wrapInt
      omega
    have by1 : 188 ≤ (updateball g.Ball).Y ∧ (updateball g.Ball).Y ≤ 312 := by
      rw [u5, hY, hS]
      rcases hDy with d | d <;> rw [d] <;> unfold wrapInt <;> omega
    have hw : afterWall g r1 r2 = { g with Ball := updateball g.Ball } := by
      unfold afterWall
      apply collisionwithwall_idle
      · simp only [BALL_RADIUS]; omega
      · simp only [BALL_RADIUS, GAME_HEIGHT]; omega
      · simp only [BALL_RADIUS, bx]; omega
      · simp only [BALL_RADIUS, GAME_WIDTH, bx]; omega
    have e37 : wrapInt (wrapInt (0 + 25) + 12) = 37 := by decide
    have e300 : wrapInt (200 + 100) = 300 := by decide
    have hit : hitPaddle1 (afterWall g r1 r2) = true := by
      rw [hw]
      simp only [hitPaddle1, x1, w1, hh1, y1, u2, hDx, bx, BALL_RADIUS, e37, e300,
        Bool.and_eq_true, decide_eq_true_eq]
      refine ⟨⟨⟨by omega, by omega⟩, ?_⟩, ?_⟩
      · unfold wrapInt; omega
      · unfold wrapInt; omega
    have nohit2 : hitPaddle2 (bouncePaddle1 (afterWall g r1 r2)) = false :=
      no_double_hit _ (by rw [hw]; exact x1) (by rw [hw]; exact w1) (by rw [hw]; exact hx2) hit
    have ht : tick g r1 r2 = bouncePaddle1 (afterWall g r1 r2) := by
      rw [tick_eq_afterWall]
      simp only [bouncePaddle2, nohit2]
      rfl
    have hb : bouncePaddle1 (afterWall g r1 r2) =
        { g with Ball := { updateball g.Ball with
            X := wrapInt (wrapInt (g.Paddle1.X + g.Paddle1.Width) + BALL_RADIUS),
            Dx := 1,
            Speed := wrapInt ((updateball g.Ball).Speed + 1) } } := by
      simp only [bouncePaddle1, hit, if_true]
      rw [hw]
    have es : wrapInt (s + 1) = s + 1 := by unfold wrapInt; omega
    rw [ht, hb]
    simp only [x1, w1, BALL_RADIUS, e37, u1, hS, es]
    exact ⟨bx, by norm_num, trivial, trivial, trivial, trivial⟩

/-- C8 (amended) at a concrete input: the ball at (14, 250) with speed 1. -/
theorem paddle_hit_scenario_witness :
    ((1 : Int) ≤ 1 ∧ (1 : Int) ≤ maxInt ∧ scenarioAt14.Ball.Y = 250 ∧
      scenarioAt14.Ball.Dx = -1 ∧ scenarioAt14.Ball.Speed = 1 ∧
      scenarioAt14.Paddle1.X = 0 ∧ scenarioAt14.Paddle1.Width = 25 ∧
      scenarioAt14.Paddle1.Height = 100 ∧ scenarioAt14.Paddle1.Y = 200 ∧
      scenarioAt14.Paddle2.X = 475 ∧ scenarioAt14.Ball.X = 13 + 1) ∧
    (updateball scenarioAt14.Ball).X = 13 ∧
    (tick scenarioAt14 0 0).Ball.X =
      scenarioAt14.Paddle1.X + scenarioAt14.Paddle1.Width + BALL_RADIUS ∧
    (tick scenarioAt14 0 0).Ball.X = 37 ∧
    (tick scenarioAt14 0 0).Ball.Dx = 1 ∧
    (tick scenarioAt14 0 0).Ball.Speed = 1 + 1 ∧
    (tick scenarioAt14 0 0).Score = scenarioAt14.Score :=
  ⟨by decide,
   (paddle_hit_scenario scenarioAt14 0 0 1 (by decide) (by decide) (by decide) (by decide)
      (by decide) (by decide) (by decide)).2 (by decide) (by decide) (by decide)⟩

/-! ## C9: ball direction invariant -/

theorem Ballcreation_directions (r1 r2 : Fin 2) : UnitDirections (Ballcreation r1 r2) :=
  ⟨direction_cases r1, direction_cases r2⟩

theorem collisionwithwall_directions (state : Gamestate) (r1 r2 : Fin 2)
    (h : UnitDirections state.Ball) : UnitDirections (collisionwithwall state r1 r2).Ball := by
  obtain ⟨hx, hy⟩ := h
  have c := Ballcreation_directions r1 r2
  have f3 : wrapInt (-1) = -1 := by decide
  have f4 : wrapInt 1 = 1 := by decide
  unfold collisionwithwall
  simp only
  split_ifs <;> first | exact c | (refine ⟨hx, ?_⟩; rcases hy with d | d <;> simp [d, f3, f4])

theorem bouncePaddle1_directions (state : Gamestate) (h : UnitDirections state.Ball) :
    UnitDirections (bouncePaddle1 state).Ball := by
  unfold bouncePaddle1
  split
  · exact ⟨Or.inr rfl, h.2⟩
  · exact h

theorem bouncePaddle2_directions (state : Gamestate) (h : UnitDirections state.Ball) :
    UnitDirections (bouncePaddle2 state).Ball := by
  unfold bouncePaddle2
  split
  · exact ⟨Or.inl rfl, h.2⟩
  · exact h

theorem tick_directions (g : Gamestate) (r1 r2 : Fin 2) (h : UnitDirections g.Ball) :
    UnitDirections (tick g r1 r2).Ball := by
  rw [tick_eq_afterWall]
  apply bouncePaddle2_directions
  apply bouncePaddle1_directions
  unfold afterWall
  apply collisionwithwall_directions
  obtain ⟨-, u2, u3, -⟩ := updateball_fields g.Ball
  unfold UnitDirections
  rw [u2, u3]
  exact h

theorem step_directions (g : Gamestate) (st : Step) (h : UnitDirections g.Ball) :
    ∃ g1, step (some g) st = some g1 ∧ UnitDirections g1.Ball := by
  cases st with
  | move playerID role direction =>
    obtain ⟨g1, e, -, -, hb, -⟩ := paddleMovement_some g playerID role direction
    exact ⟨g1, e, by rw [hb]; exact h⟩
  | tick r1 r2 => exact ⟨tick g r1 r2, rfl, tick_directions g r1 r2 h⟩

theorem run_directions (steps : List Step) (g : Gamestate) (h : UnitDirections g.Ball) :
    ∃ g1, run (some g) steps = some g1 ∧ UnitDirections g1.Ball := by
  induction steps generalizing g with
  | nil => exact ⟨g, rfl, h⟩
  | cons st rest ih =>
    obtain ⟨g1, e1, h1⟩ := step_directions g st h
    obtain ⟨g2, e2, h2⟩ := ih g1 h1
    refine ⟨g2, ?_, h2⟩
    simp only [run, List.foldl_cons] at e2 ⊢
    rw [e1]
    exact e2

/-- C9. Ball direction invariant: `Ballcreation` returns dx and dy each in
{-1, 1} for every random draw; for every game state with dx, dy in {-1, 1} one
tick yields a ball with dx, dy in {-1, 1}; hence, whenever `startGame` returns,
in every state reached from the game it has installed, by any finite sequence
of ticks and `paddleMovement` commands, dx and dy are exactly -1 or 1. -/
theorem ball_direction_invariant :
    (∀ r1 r2 : Fin 2,
      ((Ballcreation r1 r2).Dx = -1 ∨ (Ballcreation r1 r2).Dx = 1) ∧
      ((Ballcreation r1 r2).Dy = -1 ∨ (Ballcreation r1 r2).Dy = 1)) ∧
    (∀ (g : Gamestate) (r1 r2 : Fin 2),
      (g.Ball.Dx = -1 ∨ g.Ball.Dx = 1) → (g.Ball.Dy = -1 ∨ g.Ball.Dy = 1) →
      ((tick g r1 r2).Ball.Dx = -1 ∨ (tick g r1 r2).Ball.Dx = 1) ∧
      ((tick g r1 r2).Ball.Dy = -1 ∨ (tick g r1 r2).Ball.Dy = 1)) ∧
    (∀ (s : Server) (fails infoFails : String → Bool) (r1 r2 : Fin 2) (steps : List Step),
      (startGame s fails infoFails r1 r2).blocked = false →
      ∃ g, run (startGame s fails infoFails r1 r2).game steps = some g ∧
        (g.Ball.Dx = -1 ∨ g.Ball.Dx = 1) ∧ (g.Ball.Dy = -1 ∨ g.Ball.Dy = 1)) := by
  refine ⟨fun r1 r2 => Ballcreation_directions r1 r2,
    fun g r1 r2 hx hy => tick_directions g r1 r2 ⟨hx, hy⟩, ?_⟩
  intro s fails infoFails r1 r2 steps hret
  rw [startGame_game s fails infoFails r1 r2 hret]
  exact run_directions steps _ (Ballcreation_directions r1 r2)

/-- C9 at a concrete input: one tick of `rallyState`, whose ball has
dx = dy = 1 and bounces off the bottom wall, and the run `sampleSteps` from
the game `startGame` installs for the two-player registry. -/
theorem ball_direction_invariant_witness :
    ((rallyState.Ball.Dx = -1 ∨ rallyState.Ball.Dx = 1) ∧
      (rallyState.Ball.Dy = -1 ∨ rallyState.Ball.Dy = 1) ∧
      (startGame twoPlayers allDelivered allDelivered 0 1).blocked = false) ∧
    (((tick rallyState 0 0).Ball.Dx = -1 ∨ (tick rallyState 0 0).Ball.Dx = 1) ∧
      ((tick rallyState 0 0).Ball.Dy = -1 ∨ (tick rallyState 0 0).Ball.Dy = 1)) ∧
    ∃ g, run (startGame twoPlayers allDelivered allDelivered 0 1).game sampleSteps = some g ∧
      (g.Ball.Dx = -1 ∨ g.Ball.Dx = 1) ∧ (g.Ball.Dy = -1 ∨ g.Ball.Dy = 1) :=
  ⟨by decide, ball_direction_invariant.2.1 rallyState 0 0 (by decide) (by decide),
   ball_direction_invariant.2.2 twoPlayers allDelivered allDelivered 0 1 sampleSteps
     (by decide)⟩

/-! ## C10: the movement step -/

/-- C10 fails as stated: a paddle of height `500 - maxInt` at `y = maxInt`
satisfies `h ≤ GAME_HEIGHT` and `0 ≤ y ≤ GAME_HEIGHT - h`, yet its owner's
"down" command sets y to 0, not to `min (GAME_HEIGHT - h) (y + 50)`: the
addition `y + 50` wraps below zero and the lower clamp applies. -/
theorem movement_step_counterexample :
    hugePaddleState.Paddle1.Id = "a" ∧
    hugePaddleState.Paddle1.Height ≤ GAME_HEIGHT ∧
    0 ≤ hugePaddleState.Paddle1.Y ∧
    hugePaddleState.Paddle1.Y ≤ GAME_HEIGHT - hugePaddleState.Paddle1.Height ∧
    paddleMovement (some hugePaddleState) "a" "player1" "down" =
      some { hugePaddleState with Paddle1 := { hugePaddleState.Paddle1 with Y := 0 } } ∧
    min (GAME_HEIGHT - hugePaddleState.Paddle1.Height) (hugePaddleState.Paddle1.Y + 50) =
      9223372036854775807 ∧
    ¬ (paddleMovement (some hugePaddleState) "a" "player1" "down" =
      some { hugePaddleState with Paddle1 := { hugePaddleState.Paddle1 with
        Y := min (GAME_HEIGHT - hugePaddleState.Paddle1.Height)
               (hugePaddleState.Paddle1.Y + 50) } }) := by
  decide

theorem movePaddle_up (p : Paddlemovement)
    (hover : GAME_HEIGHT - p.Height + PADDLE_SPEED ≤ maxInt)
    (hh : p.Height ≤ GAME_HEIGHT) (h0 : 0 ≤ p.Y) (h1 : p.Y ≤ GAME_HEIGHT - p.Height) :
    movePaddle p "up" = { p with Y := max 0 (p.Y - PADDLE_SPEED) } := by
  simp only [GAME_HEIGHT, PADDLE_SPEED, maxInt] at hover hh h1 ⊢
  have e1 : wrapInt (p.Y - 50) = p.Y - 50 := by unfold wrapInt; omega
  have e2 : wrapInt (500 - p.Height) = 500 - p.Height := by unfold wrapInt; omega
  have nd : ¬ ("up" = "down") := by decide
  unfold movePaddle
  simp only [GAME_HEIGHT, PADDLE_SPEED, if_true, if_neg nd, e1, e2]
  by_cases c : p.Y - 50 < 0
  · rw [if_pos c]
    have c2 : ¬ (0 : Int) > 500 - p.Height := by omega
    simp only [e2, if_neg c2]
    rw [max_eq_left (by omega)]
  · rw [if_neg c]
    have c2 : ¬ p.Y - 50 > 500 - p.Height := by omega
    simp only [e2, if_neg c2]
    rw [max_eq_right (by omega)]

theorem movePaddle_down (p : Paddlemovement)
    (hover : GAME_HEIGHT - p.Height + PADDLE_SPEED ≤ maxInt)
    (hh : p.Height ≤ GAME_HEIGHT) (h0 : 0 ≤ p.Y) (h1 : p.Y ≤ GAME_HEIGHT - p.Height) :
    movePaddle p "down" = { p with Y := min (GAME_HEIGHT - p.Height) (p.Y + PADDLE_SPEED) } := by
  simp only [GAME_HEIGHT, PADDLE_SPEED, maxInt] at hover hh h1 ⊢
  have e1 : wrapInt (p.Y + 50) = p.Y + 50 := by unfold wrapInt; omega
  have e2 : wrapInt (500 - p.Height) = 500 - p.Height := by unfold wrapInt; omega
  have nd : ¬ ("down" = "up") := by decide
  have c : ¬ p.Y + 50 < 0 := by omega
  unfold movePaddle
  simp only [GAME_HEIGHT, PADDLE_SPEED, if_true, if_neg nd, e1, e2, if_neg c]
  by_cases c2 : p.Y + 50 > 500 - p.Height
  · simp only [e2, if_pos c2]
    rw [min_eq_left (by omega)]
  · simp only [e2, if_neg c2]
    rw [min_eq_right (by omega)]

/-- C10, amended. Movement step: for every active game state in which the
addressed paddle has height `h ≤ GAME_HEIGHT` with `GAME_HEIGHT - h + 50` not
above the largest `int` (every `h ≥ 0` qualifies) and `0 ≤ y ≤ GAME_HEIGHT - h`,
and the supplied playerID equals that paddle's Id, `paddleMovement` with
direction "up" sets the paddle's y to `max 0 (y - 50)` and with direction
"down" sets it to `min (GAME_HEIGHT - h) (y + 50)`, leaving the rest of the
state as it was, for role player1 and role player2 alike. -/
theorem movement_step (g : Gamestate) (playerID : String) :
    (g.Paddle1.Id = playerID → g.Paddle1.Height ≤ GAME_HEIGHT →
      GAME_HEIGHT - g.Paddle1.Height + PADDLE_SPEED ≤ maxInt →
      0 ≤ g.Paddle1.Y → g.Paddle1.Y ≤ GAME_HEIGHT - g.Paddle1.Height →
      paddleMovement (some g) playerID "player1" "up" =
        some { g with Paddle1 := { g.Paddle1 with Y := max 0 (g.Paddle1.Y - 50) } } ∧
      paddleMovement (some g) playerID "player1" "down" =
        some { g with Paddle1 := { g.Paddle1 with
          Y := min (GAME_HEIGHT - g.Paddle1.Height) (g.Paddle1.Y + 50) } }) ∧
    (g.Paddle2.Id = playerID → g.Paddle2.Height ≤ GAME_HEIGHT →
      GAME_HEIGHT - g.Paddle2.Height + PADDLE_SPEED ≤ maxInt →
      0 ≤ g.Paddle2.Y → g.Paddle2.Y ≤ GAME_HEIGHT - g.Paddle2.Height →
      paddleMovement (some g) playerID "player2" "up" =
        some { g with Paddle2 := { g.Paddle2 with Y := max 0 (g.Paddle2.Y - 50) } } ∧
      paddleMovement (some g) playerID "player2" "down" =
        some { g with Paddle2 := { g.Paddle2 with
          Y := min (GAME_HEIGHT - g.Paddle2.Height) (g.Paddle2.Y + 50) } }) := by
  have n21 : ¬ ("player2" = "player1") := by decide
  constructor
  · intro hid hh hover h0 h1
    have up := movePaddle_up g.Paddle1 hover hh h0 h1
    have down := movePaddle_down g.Paddle1 hover hh h0 h1
    simp only [PADDLE_SPEED] at up down
    simp only [paddleMovement, if_true, hid, ne_eq, not_true_eq_false, if_false, up, down,
      and_self]
  · intro hid hh hover h0 h1
    have up := movePaddle_up g.Paddle2 hover hh h0 h1
    have down := movePaddle_down g.Paddle2 hover hh h0 h1
    simp only [PADDLE_SPEED] at up down
    simp only [paddleMovement, if_neg n21, if_true, hid, ne_eq, not_true_eq_false, if_false,
      up, down, and_self]

/-- C10 (amended) at a concrete input: player "a" moves paddle1 of
`rallyState` (y = 150, height 100) up to 100 and down to 200. -/
theorem movement_step_witness :
    (rallyState.Paddle1.Id = "a" ∧ rallyState.Paddle1.Height ≤ GAME_HEIGHT ∧
      GAME_HEIGHT - rallyState.Paddle1.Height + PADDLE_SPEED ≤ maxInt ∧
      0 ≤ rallyState.Paddle1.Y ∧
      rallyState.Paddle1.Y ≤ GAME_HEIGHT - rallyState.Paddle1.Height) ∧
    paddleMovement (some rallyState) "a" "player1" "up" =
      some { rallyState with Paddle1 := { rallyState.Paddle1 with Y := 100 } } ∧
    paddleMovement (some rallyState) "a" "player1" "down" =
      some { rallyState with Paddle1 := { rallyState.Paddle1 with Y := 200 } } :=
  ⟨by decide,
   (movement_step rallyState "a").1 (by decide) (by decide) (by decide) (by decide)
     (by decide)⟩

/-! ## C11: invalid input is dropped -/

theorem movePaddle_other (p : Paddlemovement) (direction : String)
    (hu : direction ≠ "up") (hd : direction ≠ "down")
    (h0 : 0 ≤ p.Y) (h1 : p.Y ≤ wrapInt (GAME_HEIGHT - p.Height)) :
    movePaddle p direction = p := by
  have c1 : ¬ p.Y < 0 := by omega
  have c2 : ¬ p.Y > wrapInt (GAME_HEIGHT - p.Height) := by omega
  unfold movePaddle
  simp only [if_neg hu, if_neg hd, if_neg c1, if_neg c2]

/-- C11 fails as stated in part (c): a paddle of height `-2^63` at y = 100
satisfies `0 ≤ y ≤ GAME_HEIGHT - height`, yet its owner's command with the
unknown direction "left" moves it: `GAME_HEIGHT - height` wraps to
`500 - 2^63` in the upper clamp, which then sets y to that value. -/
theorem invalid_input_counterexample :
    deepPaddleState.Paddle1.Id = "a" ∧
    (0 ≤ deepPaddleState.Paddle1.Y ∧
      deepPaddleState.Paddle1.Y ≤ GAME_HEIGHT - deepPaddleState.Paddle1.Height) ∧
    (0 ≤ deepPaddleState.Paddle2.Y ∧
      deepPaddleState.Paddle2.Y ≤ GAME_HEIGHT - deepPaddleState.Paddle2.Height) ∧
    paddleMovement (some deepPaddleState) "a" "player1" "left" =
      some { deepPaddleState with
        Paddle1 := { deepPaddleState.Paddle1 with Y := -9223372036854775308 } } ∧
    ¬ (paddleMovement (some deepPaddleState) "a" "player1" "left" = some deepPaddleState) := by
  decide

/-- C11, amended. Invalid input is dropped without mutation: (a) when no
session exists (`game` is nil) `paddleMovement` leaves the session absent for
every input; (b) for every active game state and every role string other than
"player1" and "player2", `paddleMovement` leaves the state unchanged; (c) for
every active game state whose paddles satisfy `0 ≤ y ≤ GAME_HEIGHT - height`
with `GAME_HEIGHT - height` not above the largest `int` (every height ≥ 0
qualifies) and every direction string other than "up" and "down",
`paddleMovement` leaves the state unchanged, whatever the playerID and role,
also when the playerID matches the role's paddle. -/
theorem invalid_input_dropped :
    (∀ playerID role direction : String,
      paddleMovement none playerID role direction = none) ∧
    (∀ (g : Gamestate) (playerID role direction : String),
      role ≠ "player1" → role ≠ "player2" →
      paddleMovement (some g) playerID role direction = some g) ∧
    (∀ (g : Gamestate) (playerID role direction : String),
      direction ≠ "up" → direction ≠ "down" →
      (0 ≤ g.Paddle1.Y ∧ g.Paddle1.Y ≤ GAME_HEIGHT - g.Paddle1.Height ∧
        GAME_HEIGHT - g.Paddle1.Height ≤ maxInt) →
      (0 ≤ g.Paddle2.Y ∧ g.Paddle2.Y ≤ GAME_HEIGHT - g.Paddle2.Height ∧
        GAME_HEIGHT - g.Paddle2.Height ≤ maxInt) →
      paddleMovement (some g) playerID role direction = some g) := by
  refine ⟨fun _ _ _ => rfl, ?_, ?_⟩
  · intro g playerID role direction h1 h2
    simp only [paddleMovement, if_neg h1, if_neg h2]
  · intro g playerID role direction hu hd ⟨a0, a1, a2⟩ ⟨b0, b1, b2⟩
    simp only [GAME_HEIGHT, maxInt] at a1 a2 b1 b2
    have e1 : movePaddle g.Paddle1 direction = g.Paddle1 := by
      apply movePaddle_other _ _ hu hd a0
      simp only [GAME_HEIGHT]
      unfold wrapInt
      omega
    have e2 : movePaddle g.Paddle2 direction = g.Paddle2 := by
      apply movePaddle_other _ _ hu hd b0
      simp only [GAME_HEIGHT]
      unfold wrapInt
      omega
    simp only [paddleMovement, e1, e2]
    split_ifs <;> rfl

/-- C11 (amended) at a concrete input: the owner of paddle1 sends the
direction "left" on `rallyState`, and a stranger sends role "spectator". -/
theorem invalid_input_dropped_witness :
    (("left" : String) ≠ "up" ∧ ("left" : String) ≠ "down" ∧
      ("spectator" : String) ≠ "player1" ∧ ("spectator" : String) ≠ "player2" ∧
      (0 ≤ rallyState.Paddle1.Y ∧ rallyState.Paddle1.Y ≤ GAME_HEIGHT - rallyState.Paddle1.Height ∧
        GAME_HEIGHT - rallyState.Paddle1.Height ≤ maxInt) ∧
      (0 ≤ rallyState.Paddle2.Y ∧ rallyState.Paddle2.Y ≤ GAME_HEIGHT - rallyState.Paddle2.Height ∧
        GAME_HEIGHT - rallyState.Paddle2.Height ≤ maxInt)) ∧
    paddleMovement (some rallyState) "a" "player1" "left" = some rallyState ∧
    paddleMovement (some rallyState) "x" "spectator" "up" = some rallyState :=
  ⟨by decide,
   invalid_input_dropped.2.2 rallyState "a" "player1" "left" (by decide) (by decide)
     (by decide) (by decide),
   invalid_input_dropped.2.1 rallyState "x" "spectator" "up" (by decide) (by decide)⟩

/-! ## C12: the session-start state -/

/-- C13 fails on the code: for a registry holding a player1 and a player2
connection `startGame` puts both paddles at y = `GAME_HEIGHT / 2` = 250, not
at `(GAME_HEIGHT - PADDLE_HEIGHT) / 2` = 200; with height 100 they span
[250, 350], so `y + height / 2` = 300 while `GAME_HEIGHT / 2` = 250. -/
theorem paddles_start_off_centre :
    (startGame twoPlayers allDelivered allDelivered 0 0).game.map
        (fun g => (g.Paddle1.Y, g.Paddle1.Height, g.Paddle2.Y, g.Paddle2.Height)) =
      some (250, 100, 250, 100) ∧
    (250 : Int) + 100 / 2 = 300 ∧ GAME_HEIGHT / 2 = 250 ∧
    (GAME_HEIGHT - PADDLE_HEIGHT) / 2 = 200 := by
  decide

/-! ## C14: leave is idempotent on membership -/

theorem mapDelete_absent (clients : List Client) (id : String)
    (h : ∀ c ∈ clients, c.id ≠ id) : mapDelete clients id = clients := by
  unfold mapDelete
  apply List.filter_eq_self.mpr
  intro c hc
  simpa using h c hc

theorem mapDelete_twice (clients : List Client) (id : String) :
    mapDelete (mapDelete clients id) id = mapDelete clients id := by
  unfold mapDelete
  rw [List.filter_filter]
  simp

theorem manager_removeClient (s : Server) (client : Client) (w : String → Bool)
    (hb : s.blocked = false) :
    manager s (.removeClient client w) =
      { s with clients := broadcastToAll (mapDelete s.clients client.id) w } := by
  simp only [manager, hb, Bool.false_eq_true, if_false]

theorem manager_blocked (s : Server) (e : Event) (hb : s.blocked = true) :
    manager s e = s := by
  cases e <;> simp only [manager, hb, if_true]

theorem mapDelete_broadcastToAll (clients : List Client) (id : String) (w : String → Bool) :
    mapDelete (broadcastToAll clients w) id = broadcastToAll (mapDelete clients id) w := by
  unfold mapDelete broadcastToAll
  rw [List.filter_filter, List.filter_filter]
  congr 1
  funext c
  exact Bool.and_comm _ _

/-- C14 fails as stated for the whole leave step: on the registry {"a", "b"},
a leave for the unregistered id "c" whose "player disconnected" write to "b"
fails removes "b" from the membership; and after a first leave for "c" with
every write succeeding, a second leave for "c" during which the write to "b"
fails yields a different membership. -/
theorem leave_idempotent_counterexample :
    (∀ c ∈ twoPlayers.clients, c.id ≠ "c") ∧
    (manager twoPlayers (.removeClient { id := "c", role := "" } failsB)).clients =
      [{ id := "a", role := "player1" }] ∧
    ¬ ((manager twoPlayers (.removeClient { id := "c", role := "" } failsB)).clients =
      twoPlayers.clients) ∧
    ¬ ((manager (manager twoPlayers (.removeClient { id := "c", role := "" } allDelivered))
          (.removeClient { id := "c", role := "" } failsB)).clients =
        (manager twoPlayers (.removeClient { id := "c", role := "" } allDelivered)).clients) := by
  decide

/-- C14, amended. Leave is idempotent on membership up to the pruning of its
broadcast: for every registry and every connection identifier,
`delete(clients, id)` for an identifier that is not registered leaves the
membership map unchanged, and deleting twice yields the same membership as
deleting once.  For the whole `removeClient` case of `manager` (with
`clientsMu` free): with an unregistered identifier the membership it leaves is
the registry minus the members whose "player disconnected" write fails, hence
the registry itself (and the whole server state) when every write succeeds;
and a second leave for the same identifier leaves the membership of the first
minus the members whose write fails in its own broadcast, hence the same
membership (and server state) when every write of the second succeeds. -/
theorem leave_idempotent :
    (∀ (clients : List Client) (id : String),
      (∀ c ∈ clients, c.id ≠ id) → mapDelete clients id = clients) ∧
    (∀ (clients : List Client) (id : String),
      mapDelete (mapDelete clients id) id = mapDelete clients id) ∧
    (∀ (s : Server) (client : Client) (w : String → Bool),
      (∀ c ∈ s.clients, c.id ≠ client.id) →
      (s.blocked = false →
        (manager s (.removeClient client w)).clients = broadcastToAll s.clients w) ∧
      manager s (.removeClient client allDelivered) = s) ∧
    (∀ (s : Server) (client : Client) (w1 w2 : String → Bool),
      (s.blocked = false →
        (manager (manager s (.removeClient client w1)) (.removeClient client w2)).clients =
          broadcastToAll (manager s (.removeClient client w1)).clients w2) ∧
      manager (manager s (.removeClient client w1)) (.removeClient client allDelivered) =
        manager s (.removeClient client w1)) := by
  refine ⟨mapDelete_absent, mapDelete_twice, ?_, ?_⟩
  · intro s client w h
    constructor
    · intro hb
      rw [manager_removeClient s client w hb, mapDelete_absent _ _ h]
    · cases hb : s.blocked with
      | true => exact manager_blocked s _ hb
      | false =>
        rw [manager_removeClient s client _ hb, mapDelete_absent _ _ h,
          broadcastToAll_delivered]
  · intro s client w1 w2
    cases hb : s.blocked with
    | true =>
      rw [manager_blocked s _ hb]
      exact ⟨fun h => absurd h (by simp), manager_blocked s _ hb⟩
    | false =>
      have h1 := manager_removeClient s client w1 hb
      have hb1 : (manager s (.removeClient client w1)).blocked = false := by
        rw [h1]
        exact hb
      have e : mapDelete (manager s (.removeClient client w1)).clients client.id =
          (manager s (.removeClient client w1)).clients := by
        rw [h1]
        simp only
        rw [mapDelete_broadcastToAll, mapDelete_twice]
      constructor
      · intro _
        rw [manager_removeClient _ client w2 hb1, e]
      · rw [manager_removeClient _ client allDelivered hb1, e, broadcastToAll_delivered]

/-- C14 (amended) at a concrete input: "c" is not registered in `twoPlayers`
and every write succeeds. -/
theorem leave_idempotent_witness :
    (∀ c ∈ twoPlayers.clients, c.id ≠ "c") ∧
    manager twoPlayers (.removeClient { id := "c", role := "" } allDelivered) = twoPlayers :=
  ⟨by decide,
   (leave_idempotent.2.2.1 twoPlayers { id := "c", role := "" } allDelivered
      (by decide)).2⟩

/-! ## C15: restart and the stop channels -/

theorem replicate_getD_last (n : Nat) :
    (List.replicate n true ++ [false]).getD n false = false := by
  induction n with
  | zero => rfl
  | succ k ih => simp [List.replicate_succ, ih]

theorem replicate_set_last (n : Nat) :
    (List.replicate n true ++ [false]).set n true = List.replicate (n + 1) true := by
  induction n with
  | zero => rfl
  | succ k ih => simp [List.replicate_succ, ih]

theorem replicate_getD_lt (n i : Nat) (l : List Bool) (h : i < n) :
    (List.replicate n true ++ l).getD i false = true := by
  induction n generalizing i with
  | zero => omega
  | succ k ih =>
    cases i with
    | zero => rfl
    | succ j => simpa [List.replicate_succ] using ih j (by omega)

theorem startGame_channels (s : Server) (fails infoFails : String → Bool) (r1 r2 : Fin 2) :
    (startGame s fails infoFails r1 r2).chans = (stopPrevious s).chans ++ [false] ∧
    (startGame s fails infoFails r1 r2).stopGame = some (stopPrevious s).chans.length ∧
    (startGame s fails infoFails r1 r2).fault = s.fault := by
  obtain ⟨-, -, -, -, hf, -⟩ := stopPrevious_frame s
  unfold startGame
  simp only
  split_ifs <;> exact ⟨rfl, rfl, hf⟩

theorem startGame_fault (s : Server) (fails infoFails : String → Bool) (r1 r2 : Fin 2) :
    (startGame s fails infoFails r1 r2).fault = s.fault :=
  (startGame_channels s fails infoFails r1 r2).2.2

theorem stopPrevious_none (s : Server) (hs : s.stopGame = none) : stopPrevious s = s := by
  unfold stopPrevious
  rw [hs]

theorem stopPrevious_Started (s : Server) (n : Nat) (h : Started s n) :
    (stopPrevious s).chans = List.replicate (n + 1) true := by
  obtain ⟨-, hc, hs, -⟩ := h
  have hopen : s.closed n = false := by
    unfold Server.closed
    rw [hc]
    exact replicate_getD_last n
  unfold stopPrevious
  simp only [hs, hopen, Server.close, hc, replicate_set_last, Bool.false_eq_true, if_false]

theorem startGame_first (s : Server) (fails infoFails : String → Bool) (r1 r2 : Fin 2)
    (hf : s.fault = false) (hc : s.chans = []) (hs : s.stopGame = none) (hl : s.loops = [])
    (hret : (startGame s fails infoFails r1 r2).blocked = false) :
    Started (startGame s fails infoFails r1 r2) 0 := by
  obtain ⟨c1, c2, c3⟩ := startGame_channels s fails infoFails r1 r2
  obtain ⟨-, -, -, -, l1⟩ := startGame_returned s fails infoFails r1 r2 hret
  rw [stopPrevious_none s hs, hc] at c1 c2 l1
  rw [hl] at l1
  exact ⟨c3.trans hf, c1, c2, l1⟩

theorem startGame_next (s : Server) (fails infoFails : String → Bool) (r1 r2 : Fin 2) (n : Nat)
    (h : Started s n) (hret : (startGame s fails infoFails r1 r2).blocked = false) :
    Started (startGame s fails infoFails r1 r2) (n + 1) := by
  obtain ⟨c1, c2, c3⟩ := startGame_channels s fails infoFails r1 r2
  obtain ⟨-, -, -, -, l1⟩ := startGame_returned s fails infoFails r1 r2 hret
  rw [stopPrevious_Started s n h] at c1 c2 l1
  obtain ⟨hf, -, -, hl⟩ := h
  simp only [List.length_replicate] at c2 l1
  refine ⟨c3.trans hf, c1, c2, ?_⟩
  rw [l1, hl, List.range_succ]

theorem applyCall_blocked (s : Server) (c : StartCall)
    (h : (applyCall s c).blocked = false) : s.blocked = false := by
  cases c with
  | start fails infoFails r1 r2 => exact (startGame_returned s fails infoFails r1 r2 h).1
  | restart fails infoFails r1 r2 => exact (startGame_returned s fails infoFails r1 r2 h).1

theorem runCalls_blocked (calls : List StartCall) (s : Server)
    (h : (runCalls s calls).blocked = false) : s.blocked = false := by
  induction calls generalizing s with
  | nil => exact h
  | cons c rest ih => exact applyCall_blocked s c (ih (applyCall s c) h)

theorem applyCall_next (s : Server) (c : StartCall) (n : Nat) (h : Started s n)
    (hret : (applyCall s c).blocked = false) : Started (applyCall s c) (n + 1) := by
  cases c with
  | start fails infoFails r1 r2 => exact startGame_next s fails infoFails r1 r2 n h hret
  | restart fails infoFails r1 r2 => exact startGame_next s fails infoFails r1 r2 n h hret

theorem runCalls_Started (calls : List StartCall) (s : Server) (n : Nat) (h : Started s n)
    (hret : (runCalls s calls).blocked = false) :
    Started (runCalls s calls) (n + calls.length) := by
  induction calls generalizing s n with
  | nil => exact h
  | cons c rest ih =>
    have hb : (applyCall s c).blocked = false := runCalls_blocked rest _ hret
    have h1 := ih (applyCall s c) (n + 1) (applyCall_next s c n h hb) hret
    simp only [runCalls, List.foldl_cons, List.length_cons] at h1 ⊢
    have e : n + (rest.length + 1) = n + 1 + rest.length := by omega
    rw [e]
    exact h1

theorem runCalls_fresh (s0 : Server) (c : StartCall) (rest : List StartCall)
    (hf : s0.fault = false) (hc : s0.chans = []) (hs : s0.stopGame = none)
    (hl : s0.loops = []) (hret : (runCalls s0 (c :: rest)).blocked = false) :
    Started (runCalls s0 (c :: rest)) rest.length := by
  have hb : (applyCall s0 c).blocked = false := runCalls_blocked rest _ hret
  have h0 : Started (applyCall s0 c) 0 := by
    cases c with
    | start fails infoFails r1 r2 =>
      exact startGame_first _ fails infoFails r1 r2 hf hc hs hl hb
    | restart fails infoFails r1 r2 =>
      exact startGame_first _ fails infoFails r1 r2 hf hc hs hl hb
  have h1 := runCalls_Started rest _ 0 h0 hret
  simp only [Nat.zero_add] at h1
  exact h1

theorem Started_signals (s : Server) (n : Nat) (h : Started s n) :
    s.fault = false ∧ s.loops.length = n + 1 ∧ s.loops.getLast? = some n ∧
    s.stopGame = some n ∧ s.closed n = false ∧
    (∀ c ∈ s.loops, c ≠ n → s.closed c = true) ∧
    s.loops.filter (fun c => !s.closed c) = [n] := by
  obtain ⟨hf, hc, hs, hl⟩ := h
  have hopen : s.closed n = false := by
    unfold Server.closed
    rw [hc]
    exact replicate_getD_last n
  have hclosed : ∀ c, c < n → s.closed c = true := by
    intro c hlt
    unfold Server.closed
    rw [hc]
    exact replicate_getD_lt n c _ hlt
  refine ⟨hf, by simp [hl], by simp [hl], hs, hopen, ?_, ?_⟩
  · intro c hmem hne
    rw [hl] at hmem
    simp only [List.mem_append, List.mem_range, List.mem_singleton] at hmem
    rcases hmem with hlt | rfl
    · exact hclosed c hlt
    · exact absurd rfl hne
  · rw [hl, List.filter_append]
    have e1 : (List.range n).filter (fun c => !s.closed c) = [] := by
      apply List.filter_eq_nil_iff.mpr
      intro c hmem
      simp [hclosed c (List.mem_range.mp hmem)]
    rw [e1]
    simp [hopen]

/-- The stop channels when every call returns: starting from a server on which
no session was started yet, after a non-empty sequence of `startGame` /
`Restart_Game` calls that have all returned, one loop was started per call,
the channel of the latest loop is the current `stopGame` and is open, the
channel of every other started loop is closed, and no `close` has faulted. -/
theorem restart_signals_of_returned (s0 : Server) (calls : List StartCall)
    (hf : s0.fault = false) (hc : s0.chans = []) (hs : s0.stopGame = none)
    (hl : s0.loops = []) (hne : calls ≠ [])
    (hret : (runCalls s0 calls).blocked = false) :
    (runCalls s0 calls).fault = false ∧
    (runCalls s0 calls).loops.length = calls.length ∧
    ∃ ch, (runCalls s0 calls).loops.getLast? = some ch ∧
      (runCalls s0 calls).stopGame = some ch ∧
      (runCalls s0 calls).closed ch = false ∧
      (∀ c ∈ (runCalls s0 calls).loops, c ≠ ch → (runCalls s0 calls).closed c = true) ∧
      (runCalls s0 calls).loops.filter (fun c => !(runCalls s0 calls).closed c) = [ch] := by
  cases calls with
  | nil => exact absurd rfl hne
  | cons c rest =>
    obtain ⟨a1, a2, a3, a4, a5, a6, a7⟩ :=
      Started_signals _ _ (runCalls_fresh s0 c rest hf hc hs hl hret)
    exact ⟨a1, by rw [a2]; rfl, rest.length, a3, a4, a5, a6, a7⟩

/-- On every server state `startGame` and `Restart_Game` leave the fault flag
as it was (they never close a closed channel), and when the current channel is
already closed they close nothing and only install a fresh open channel. -/
theorem startGame_never_double_closes :
    (∀ (s : Server) (fails infoFails : String → Bool) (r1 r2 : Fin 2),
      (startGame s fails infoFails r1 r2).fault = s.fault ∧
      (Restart_Game s fails infoFails r1 r2).fault = s.fault) ∧
    (∀ (s : Server) (ch : Nat) (fails infoFails : String → Bool) (r1 r2 : Fin 2),
      s.stopGame = some ch → s.closed ch = true →
      (startGame s fails infoFails r1 r2).chans = s.chans ++ [false] ∧
      (startGame s fails infoFails r1 r2).stopGame = some s.chans.length) := by
  refine ⟨fun s fails infoFails r1 r2 =>
    ⟨startGame_fault s fails infoFails r1 r2, startGame_fault s fails infoFails r1 r2⟩, ?_⟩
  intro s ch fails infoFails r1 r2 hs hc
  obtain ⟨c1, c2, -⟩ := startGame_channels s fails infoFails r1 r2
  have e : stopPrevious s = s := by
    unfold stopPrevious
    simp only [hs, hc, if_true]
  rw [e] at c1 c2
  exact ⟨c1, c2⟩

/-- The two facts above at concrete inputs: a start followed by two restarts
in a row that all return, and a start on a server whose current channel is
already closed. -/
theorem restart_signals_examples :
    ((runCalls Server.init doubleRestart).blocked = false ∧
      (runCalls Server.init doubleRestart).loops = [0, 1, 2] ∧
      (runCalls Server.init doubleRestart).chans = [true, true, false] ∧
      (runCalls Server.init doubleRestart).loops.filter
        (fun c => !(runCalls Server.init doubleRestart).closed c) = [2]) ∧
    (alreadyStopped.closed 0 = true ∧
      (startGame alreadyStopped allDelivered allDelivered 0 0).chans = [true, false] ∧
      (startGame alreadyStopped allDelivered allDelivered 0 0).fault = false) := by
  decide

/-- C15 fails on the code. "a" and "b" join and the first game starts (loop 0
on channel 0), "a" leaves, "c" joins and `startGame` runs again: it closes
channel 0 and makes channel 1, then the `PLAYER_INFO` write to "b" fails and
`broadcastToclient` parks on `clientsMu`, which `startGame` holds.  No loop is
started on channel 1: the only started loop is cancelled, so no started loop is
uncancelled, and the game of the first session stays installed.  The same
happens when `Restart_Game` follows a `startGame` on the two-player registry. -/
theorem restart_parks_on_failed_write :
    ((rejoinDeadPeer.foldl manager Server.init).blocked = true ∧
      (rejoinDeadPeer.foldl manager Server.init).chans = [true, false] ∧
      (rejoinDeadPeer.foldl manager Server.init).stopGame = some 1 ∧
      (rejoinDeadPeer.foldl manager Server.init).loops = [0] ∧
      (rejoinDeadPeer.foldl manager Server.init).loops.filter
        (fun c => !(rejoinDeadPeer.foldl manager Server.init).closed c) = [] ∧
      (rejoinDeadPeer.foldl manager Server.init).fault = false) ∧
    ((runCalls twoPlayers restartWithDeadPeer).blocked = true ∧
      (runCalls twoPlayers restartWithDeadPeer).chans = [true, false] ∧
      (runCalls twoPlayers restartWithDeadPeer).loops = [0] ∧
      (runCalls twoPlayers restartWithDeadPeer).loops.length = 1 ∧
      restartWithDeadPeer.length = 2 ∧
      (runCalls twoPlayers restartWithDeadPeer).loops.filter
        (fun c => !(runCalls twoPlayers restartWithDeadPeer).closed c) = [] ∧
      (runCalls twoPlayers restartWithDeadPeer).game =
        (runCalls twoPlayers [.start allDelivered allDelivered 0 0]).game) := by
  decide

/-! ## C16: the paddle collision step -/

theorem hitPaddle1_iff (state : Gamestate)
    (hx1 : state.Paddle1.X = 0) (hw1 : state.Paddle1.Width = 25)
    (hy : minInt + 12 ≤ state.Ball.Y ∧ state.Ball.Y ≤ maxInt - 12)
    (hp : isInt (state.Paddle1.Y + state.Paddle1.Height)) :
    hitPaddle1 state = true ↔
      (state.Ball.Dx < 0 ∧ state.Ball.X ≤ 37 ∧ state.Paddle1.Y ≤ state.Ball.Y + 12 ∧
        state.Ball.Y - 12 ≤ state.Paddle1.Y + state.Paddle1.Height) := by
  obtain ⟨y1, y2⟩ := hy
  obtain ⟨p1, p2⟩ := hp
  simp only [minInt, maxInt] at y1 y2 p1 p2
  have e37 : wrapInt (wrapInt (0 + 25) + 12) = 37 := by decide
  have ea : wrapInt (state.Ball.Y + 12) = state.Ball.Y + 12 := by unfold wrapInt; omega
  have eb : wrapInt (state.Ball.Y - 12) = state.Ball.Y - 12 := by unfold wrapInt; omega
  have ec : wrapInt (state.Paddle1.Y + state.Paddle1.Height) =
      state.Paddle1.Y + state.Paddle1.Height := by unfold wrapInt; omega
  simp only [hitPaddle1, hx1, hw1, BALL_RADIUS, e37, ea, eb, ec, Bool.and_eq_true,
    decide_eq_true_eq, ge_iff_le]
  tauto

theorem hitPaddle2_iff (state : Gamestate) (hx2 : state.Paddle2.X = 475)
    (hy : minInt + 12 ≤ state.Ball.Y ∧ state.Ball.Y ≤ maxInt - 12)
    (hp : isInt (state.Paddle2.Y + state.Paddle2.Height)) :
    hitPaddle2 state = true ↔
      (state.Ball.Dx > 0 ∧ state.Ball.X ≥ 463 ∧ state.Paddle2.Y ≤ state.Ball.Y + 12 ∧
        state.Ball.Y - 12 ≤ state.Paddle2.Y + state.Paddle2.Height) := by
  obtain ⟨y1, y2⟩ := hy
  obtain ⟨p1, p2⟩ := hp
  simp only [minInt, maxInt] at y1 y2 p1 p2
  have e463 : wrapInt (475 - 12) = 463 := by decide
  have ea : wrapInt (state.Ball.Y + 12) = state.Ball.Y + 12 := by unfold wrapInt; omega
  have eb : wrapInt (state.Ball.Y - 12) = state.Ball.Y - 12 := by unfold wrapInt; omega
  have ec : wrapInt (state.Paddle2.Y + state.Paddle2.Height) =
      state.Paddle2.Y + state.Paddle2.Height := by unfold wrapInt; omega
  simp only [hitPaddle2, hx2, BALL_RADIUS, e463, ea, eb, ec, Bool.and_eq_true,
    decide_eq_true_eq, ge_iff_le, gt_iff_lt]
  tauto

theorem collisionwithpaddle_cases (state : Gamestate)
    (hx1 : state.Paddle1.X = 0) (hw1 : state.Paddle1.Width = 25)
    (hx2 : state.Paddle2.X = 475) :
    (hitPaddle1 state = true →
      collisionwithpaddle state =
        { state with Ball := { state.Ball with
            X := 37, Dx := 1, Speed := wrapInt (state.Ball.Speed + 1) } }) ∧
    (hitPaddle2 state = true →
      collisionwithpaddle state =
        { state with Ball := { state.Ball with
            X := 463, Dx := -1, Speed := wrapInt (state.Ball.Speed + 1) } }) ∧
    (hitPaddle1 state = false → hitPaddle2 state = false →
      collisionwithpaddle state = state) := by
  have e37 : wrapInt (wrapInt (0 + 25) + 12) = 37 := by decide
  have e463 : wrapInt (475 - 12) = 463 := by decide
  refine ⟨?_, ?_, ?_⟩
  · intro h1
    have h2 := no_double_hit state hx1 hw1 hx2 h1
    unfold collisionwithpaddle
    simp only [bouncePaddle2, h2]
    simp only [bouncePaddle1, h1, hx1, hw1, BALL_RADIUS, e37, if_true]
    rfl
  · intro h2
    have h1 : hitPaddle1 state = false := by
      cases h : hitPaddle1 state with
      | false => rfl
      | true => exact absurd ⟨h, h2⟩ (hits_exclusive state)
    have e : bouncePaddle1 state = state := by simp [bouncePaddle1, h1]
    unfold collisionwithpaddle
    rw [e]
    simp only [bouncePaddle2, h2, hx2, BALL_RADIUS, e463, if_true]
  · intro h1 h2
    have e : bouncePaddle1 state = state := by simp [bouncePaddle1, h1]
    unfold collisionwithpaddle
    rw [e]
    simp [bouncePaddle2, h2]

/-- C16 fails as stated: on a session-start court, a ball at (30, 250) with
dx = -1 and the largest `int` speed meets player1's hit condition, and
`collisionwithpaddle` wraps its speed to the smallest `int` instead of
increasing it by 1. -/
theorem paddle_collision_step_counterexample :
    fastBallAtPaddle.Paddle1.X = 0 ∧ fastBallAtPaddle.Paddle1.Width = 25 ∧
    fastBallAtPaddle.Paddle2.X = 475 ∧ fastBallAtPaddle.Paddle2.Width = 25 ∧
    fastBallAtPaddle.Ball.Dx < 0 ∧ fastBallAtPaddle.Ball.X ≤ 37 ∧
    fastBallAtPaddle.Paddle1.Y ≤ fastBallAtPaddle.Ball.Y + 12 ∧
    fastBallAtPaddle.Ball.Y - 12 ≤
      fastBallAtPaddle.Paddle1.Y + fastBallAtPaddle.Paddle1.Height ∧
    (collisionwithpaddle fastBallAtPaddle).Ball.X = 37 ∧
    (collisionwithpaddle fastBallAtPaddle).Ball.Speed = -9223372036854775808 ∧
    ¬ ((collisionwithpaddle fastBallAtPaddle).Ball.Speed =
      fastBallAtPaddle.Ball.Speed + 1) := by
  decide

/-- C16, amended. Paddle collision step (`collisionwithpaddle` alone), for
every game state whose paddles have the session-start x positions (paddle1
x = 0 and width 25, paddle2 x = 475) and in which `ball.y - 12`, `ball.y + 12`,
`ball.speed + 1` and each `paddle.y + height` are 64-bit `int` values (no
overflow): if dx < 0, ball.x ≤ 37, and [ball.y - 12, ball.y + 12] overlaps
[paddle1.y, paddle1.y + height] (paddle1.y ≤ ball.y + 12 and ball.y - 12 ≤
paddle1.y + height), then the result has ball.x = 37, dx = 1, speed increased
by exactly 1, and ball.y, dy, score and paddles unchanged; symmetrically for
paddle2 when dx > 0 and ball.x ≥ 463, giving ball.x = 463 and dx = -1; and if
neither hit condition holds the state is unchanged; a ball moving away from a
paddle (dx ≥ 0 for paddle1, dx ≤ 0 for paddle2) never meets its condition. -/
theorem paddle_collision_step (state : Gamestate)
    (hx1 : state.Paddle1.X = 0) (hw1 : state.Paddle1.Width = 25)
    (hx2 : state.Paddle2.X = 475)
    (hy : minInt + 12 ≤ state.Ball.Y ∧ state.Ball.Y ≤ maxInt - 12)
    (hs : minInt ≤ state.Ball.Speed + 1 ∧ state.Ball.Speed + 1 ≤ maxInt)
    (hp1 : isInt (state.Paddle1.Y + state.Paddle1.Height))
    (hp2 : isInt (state.Paddle2.Y + state.Paddle2.Height)) :
    (state.Ball.Dx < 0 → state.Ball.X ≤ 37 → state.Paddle1.Y ≤ state.Ball.Y + 12 →
      state.Ball.Y - 12 ≤ state.Paddle1.Y + state.Paddle1.Height →
      collisionwithpaddle state =
        { state with Ball := { state.Ball with
            X := 37, Dx := 1, Speed := state.Ball.Speed + 1 } }) ∧
    (state.Ball.Dx > 0 → state.Ball.X ≥ 463 → state.Paddle2.Y ≤ state.Ball.Y + 12 →
      state.Ball.Y - 12 ≤ state.Paddle2.Y + state.Paddle2.Height →
      collisionwithpaddle state =
        { state with Ball := { state.Ball with
            X := 463, Dx := -1, Speed := state.Ball.Speed + 1 } }) ∧
    (¬ (state.Ball.Dx < 0 ∧ state.Ball.X ≤ 37 ∧ state.Paddle1.Y ≤ state.Ball.Y + 12 ∧
          state.Ball.Y - 12 ≤ state.Paddle1.Y + state.Paddle1.Height) →
      ¬ (state.Ball.Dx > 0 ∧ state.Ball.X ≥ 463 ∧ state.Paddle2.Y ≤ state.Ball.Y + 12 ∧
          state.Ball.Y - 12 ≤ state.Paddle2.Y + state.Paddle2.Height) →
      collisionwithpaddle state = state) ∧
    (0 ≤ state.Ball.Dx → hitPaddle1 state = false) ∧
    (state.Ball.Dx ≤ 0 → hitPaddle2 state = false) := by
  obtain ⟨c1, c2, c3⟩ := collisionwithpaddle_cases state hx1 hw1 hx2
  have i1 := hitPaddle1_iff state hx1 hw1 hy hp1
  have i2 := hitPaddle2_iff state hx2 hy hp2
  have es : wrapInt (state.Ball.Speed + 1) = state.Ball.Speed + 1 :=
    wrapInt_eq_self hs.1 hs.2
  rw [es] at c1 c2
  refine ⟨fun a b c d => c1 (i1.mpr ⟨a, b, c, d⟩), fun a b c d => c2 (i2.mpr ⟨a, b, c, d⟩),
    ?_, ?_, ?_⟩
  · intro n1 n2
    apply c3
    · cases h : hitPaddle1 state with
      | false => rfl
      | true => exact absurd (i1.mp h) n1
    · cases h : hitPaddle2 state with
      | false => rfl
      | true => exact absurd (i2.mp h) n2
  · intro hd
    have : ¬ state.Ball.Dx < 0 := by omega
    simp [hitPaddle1, this]
  · intro hd
    have : ¬ state.Ball.Dx > 0 := by omega
    simp [hitPaddle2, this]

/-- C16 (amended) at a concrete input: a ball of speed 4 at (470, 390) hits
player2's paddle at y = 400. -/
theorem paddle_collision_step_witness :
    (rightHitState.Paddle1.X = 0 ∧ rightHitState.Paddle1.Width = 25 ∧
      rightHitState.Paddle2.X = 475 ∧
      (minInt + 12 ≤ rightHitState.Ball.Y ∧ rightHitState.Ball.Y ≤ maxInt - 12) ∧
      (minInt ≤ rightHitState.Ball.Speed + 1 ∧ rightHitState.Ball.Speed + 1 ≤ maxInt) ∧
      isInt (rightHitState.Paddle1.Y + rightHitState.Paddle1.Height) ∧
      isInt (rightHitState.Paddle2.Y + rightHitState.Paddle2.Height) ∧
      rightHitState.Ball.Dx > 0 ∧ rightHitState.Ball.X ≥ 463 ∧
      rightHitState.Paddle2.Y ≤ rightHitState.Ball.Y + 12 ∧
      rightHitState.Ball.Y - 12 ≤ rightHitState.Paddle2.Y + rightHitState.Paddle2.Height) ∧
    collisionwithpaddle rightHitState =
      { rightHitState with Ball := { X := 463, Y := 390, Speed := 5, Dx := -1, Dy := -1 } } :=
  ⟨by decide,
   (paddle_collision_step rightHitState (by decide) (by decide) (by decide) (by decide)
      (by decide) (by decide) (by decide)).2.1 (by decide) (by decide) (by decide)
      (by decide)⟩

/-! ## C17: wall bounce -/

theorem collisionwithwall_split (state : Gamestate) (r1 r2 : Fin 2) :
    collisionwithwall state r1 r2 = scoreGoals (bounceWalls state) r1 r2 := rfl

theorem bounceWalls_top (state : Gamestate) (h : state.Ball.Y ≤ BALL_RADIUS) :
    bounceWalls state =
      { state with Ball := { state.Ball with Y := 12, Dy := wrapInt (state.Ball.Dy * -1) } } := by
  simp only [BALL_RADIUS] at h
  have n : ¬ (12 : Int) ≥ 500 - 12 := by decide
  unfold bounceWalls
  simp only [GAME_HEIGHT, BALL_RADIUS, if_pos h, if_neg n]

theorem bounceWalls_bottom (state : Gamestate) (h : state.Ball.Y ≥ GAME_HEIGHT - BALL_RADIUS) :
    bounceWalls state =
      { state with Ball := { state.Ball with Y := 488, Dy := wrapInt (state.Ball.Dy * -1) } } := by
  simp only [GAME_HEIGHT, BALL_RADIUS] at h
  have n : ¬ state.Ball.Y ≤ 12 := by omega
  have p : state.Ball.Y ≥ 500 - 12 := by omega
  unfold bounceWalls
  simp only [GAME_HEIGHT, BALL_RADIUS, if_neg n, if_pos p]
  norm_num

theorem bounceWalls_between (state : Gamestate)
    (h1 : BALL_RADIUS < state.Ball.Y) (h2 : state.Ball.Y < GAME_HEIGHT - BALL_RADIUS) :
    bounceWalls state = state := by
  simp only [GAME_HEIGHT, BALL_RADIUS] at h1 h2
  have n : ¬ state.Ball.Y ≤ 12 := by omega
  have p : ¬ state.Ball.Y ≥ 500 - 12 := by omega
  unfold bounceWalls
  simp only [GAME_HEIGHT, BALL_RADIUS, if_neg n, if_neg p]

theorem scoreGoals_none (state : Gamestate) (r1 r2 : Fin 2)
    (h1 : BALL_RADIUS < state.Ball.X) (h2 : state.Ball.X < GAME_WIDTH - BALL_RADIUS) :
    scoreGoals state r1 r2 = state := by
  simp only [GAME_WIDTH, BALL_RADIUS] at h1 h2
  have n : ¬ state.Ball.X ≤ 12 := by omega
  have p : ¬ state.Ball.X ≥ 500 - 12 := by omega
  unfold scoreGoals
  simp only [GAME_WIDTH, BALL_RADIUS, if_neg n, if_neg p]

theorem wrapInt_neg (d : Int) (h1 : minInt < d) (h2 : d ≤ maxInt) :
    wrapInt (d * -1) = -d := by
  simp only [minInt, maxInt] at h1 h2
  unfold wrapInt
  omega

theorem tick_wall_part (g : Gamestate) (r1 r2 : Fin 2)
    (h1 : BALL_RADIUS < (updateball g.Ball).X)
    (h2 : (updateball g.Ball).X < GAME_WIDTH - BALL_RADIUS) :
    (tick g r1 r2).Ball.Y = (bounceWalls { g with Ball := updateball g.Ball }).Ball.Y ∧
    (tick g r1 r2).Ball.Dy = (bounceWalls { g with Ball := updateball g.Ball }).Ball.Dy := by
  have hx : (bounceWalls { g with Ball := updateball g.Ball }).Ball.X = (updateball g.Ball).X := by
    unfold bounceWalls
    simp only
    split_ifs <;> rfl
  have hs : scoreGoals (bounceWalls { g with Ball := updateball g.Ball }) r1 r2 =
      bounceWalls { g with Ball := updateball g.Ball } :=
    scoreGoals_none _ r1 r2 (by rw [hx]; exact h1) (by rw [hx]; exact h2)
  obtain ⟨-, -, -, fy, fd⟩ := collisionwithpaddle_frame
    (bounceWalls { g with Ball := updateball g.Ball })
  have ht : tick g r1 r2 =
      collisionwithpaddle (bounceWalls { g with Ball := updateball g.Ball }) := by
    unfold tick
    rw [collisionwithwall_split, hs]
  rw [ht]
  exact ⟨fy, fd⟩

/-- C17 fails as stated, in two places. A ball at y = 10 whose dy is the
smallest `int` keeps that dy through `collisionwithwall` (its negation wraps
to itself). And from y = 12 with dy = 1 and the largest `int` speed, the
advanced y wraps below 12, so the tick (in which no goal fires) touches the top
wall and ends with dy = -1, not +1. -/
theorem wall_bounce_counterexample :
    (steepBallState.Ball.Y ≤ BALL_RADIUS ∧
      (collisionwithwall steepBallState 0 0).Ball.Dy = steepBallState.Ball.Dy ∧
      ¬ ((collisionwithwall steepBallState 0 0).Ball.Dy = -steepBallState.Ball.Dy)) ∧
    (12 ≤ wrappingBallState.Ball.Y ∧ wrappingBallState.Ball.Y ≤ 488 ∧
      1 ≤ wrappingBallState.Ball.Speed ∧ wrappingBallState.Ball.Dy = 1 ∧
      (updateball wrappingBallState.Ball).Y ≤ BALL_RADIUS ∧
      (updateball wrappingBallState.Ball).X = 250 ∧
      (tick wrappingBallState 0 0).Score = wrappingBallState.Score ∧
      (tick wrappingBallState 0 0).Ball.Dy = -1 ∧
      ¬ ((tick wrappingBallState 0 0).Ball.Dy = 1)) := by
  decide

/-- C17, amended. Wall bounce: for every game state, the wall blocks of
`collisionwithwall` applied to a ball with `y ≤ BALL_RADIUS` set y to 12 and
negate dy in `int` arithmetic (the result is `-dy` for every `int` dy other
than the smallest one), applied to a ball with `y ≥ GAME_HEIGHT - BALL_RADIUS`
they set y to 488 and negate dy likewise, and a ball with `12 < y < 488` is
left as it is; `collisionwithwall` is these blocks followed by the goal blocks,
which change nothing when `12 < x < 488`.  Consequently, from any state with
`12 ≤ y ≤ 488`, speed ≥ 1, dy in {-1, 1} and `y + speed` not above the largest
`int`, a tick in which no goal fires and whose advanced ball touches the top
wall ends with y = 12 and dy = +1, and one that touches the bottom wall ends
with y = 488 and dy = -1. -/
theorem wall_bounce :
    (∀ state : Gamestate, state.Ball.Y ≤ BALL_RADIUS →
      bounceWalls state =
        { state with Ball := { state.Ball with
            Y := 12, Dy := wrapInt (state.Ball.Dy * -1) } } ∧
      (minInt < state.Ball.Dy → state.Ball.Dy ≤ maxInt →
        (bounceWalls state).Ball.Dy = -state.Ball.Dy)) ∧
    (∀ state : Gamestate, state.Ball.Y ≥ GAME_HEIGHT - BALL_RADIUS →
      bounceWalls state =
        { state with Ball := { state.Ball with
            Y := 488, Dy := wrapInt (state.Ball.Dy * -1) } } ∧
      (minInt < state.Ball.Dy → state.Ball.Dy ≤ maxInt →
        (bounceWalls state).Ball.Dy = -state.Ball.Dy)) ∧
    (∀ state : Gamestate, BALL_RADIUS < state.Ball.Y →
      state.Ball.Y < GAME_HEIGHT - BALL_RADIUS → bounceWalls state = state) ∧
    (∀ (state : Gamestate) (r1 r2 : Fin 2),
      collisionwithwall state r1 r2 = scoreGoals (bounceWalls state) r1 r2 ∧
      (BALL_RADIUS < state.Ball.X → state.Ball.X < GAME_WIDTH - BALL_RADIUS →
        collisionwithwall state r1 r2 = bounceWalls state)) ∧
    (∀ (g : Gamestate) (r1 r2 : Fin 2),
      12 ≤ g.Ball.Y → g.Ball.Y ≤ 488 → 1 ≤ g.Ball.Speed →
      (g.Ball.Dy = -1 ∨ g.Ball.Dy = 1) → g.Ball.Y + g.Ball.Speed ≤ maxInt →
      BALL_RADIUS < (updateball g.Ball).X →
      (updateball g.Ball).X < GAME_WIDTH - BALL_RADIUS →
      ((updateball g.Ball).Y ≤ BALL_RADIUS →
        (tick g r1 r2).Ball.Y = 12 ∧ (tick g r1 r2).Ball.Dy = 1) ∧
      ((updateball g.Ball).Y ≥ GAME_HEIGHT - BALL_RADIUS →
        (tick g r1 r2).Ball.Y = 488 ∧ (tick g r1 r2).Ball.Dy = -1)) := by
  refine ⟨?_, ?_, bounceWalls_between, ?_, ?_⟩
  · intro state h
    refine ⟨bounceWalls_top state h, fun a b => ?_⟩
    rw [bounceWalls_top state h]
    exact wrapInt_neg _ a b
  · intro state h
    refine ⟨bounceWalls_bottom state h, fun a b => ?_⟩
    rw [bounceWalls_bottom state h]
    exact wrapInt_neg _ a b
  · intro state r1 r2
    refine ⟨rfl, fun a b => ?_⟩
    have hx : (bounceWalls state).Ball.X = state.Ball.X := by
      unfold bounceWalls
      simp only
      split_ifs <;> rfl
    rw [collisionwithwall_split]
    exact scoreGoals_none _ r1 r2 (by rw [hx]; exact a) (by rw [hx]; exact b)
  · intro g r1 r2 y1 y2 hs hd hover hx1 hx2
    obtain ⟨ty, td⟩ := tick_wall_part g r1 r2 hx1 hx2
    obtain ⟨-, -, u3, -, u5⟩ := updateball_fields g.Ball
    simp only [maxInt] at hover
    have f1 : wrapInt (-1 * -1) = 1 := by decide
    have f2 : wrapInt (1 * -1) = -1 := by decide
    constructor
    · intro htop
      have hd1 : g.Ball.Dy = -1 := by
        rcases hd with d | d
        · exact d
        · exfalso
          rw [u5, d] at htop
          simp only [BALL_RADIUS] at htop
          unfold wrapInt at htop
          omega
      rw [ty, td, bounceWalls_top _ htop]
      simp only [u3, hd1, f1, and_self]
    · intro hbot
      have hd1 : g.Ball.Dy = 1 := by
        rcases hd with d | d
        · exfalso
          rw [u5, d] at hbot
          simp only [BALL_RADIUS, GAME_HEIGHT] at hbot
          unfold wrapInt at hbot
          omega
        · exact d
      rw [ty, td, bounceWalls_bottom _ hbot]
      simp only [u3, hd1, f2, and_self]

/-- C17 (amended) at a concrete input: a ball of speed 6 at (200, 15) heading
up touches the top wall and leaves the tick at y = 12 heading down. -/
theorem wall_bounce_witness :
    ((12 : Int) ≤ topBounceState.Ball.Y ∧ topBounceState.Ball.Y ≤ 488 ∧
      1 ≤ topBounceState.Ball.Speed ∧
      (topBounceState.Ball.Dy = -1 ∨ topBounceState.Ball.Dy = 1) ∧
      topBounceState.Ball.Y + topBounceState.Ball.Speed ≤ maxInt ∧
      BALL_RADIUS < (updateball topBounceState.Ball).X ∧
      (updateball topBounceState.Ball).X < GAME_WIDTH - BALL_RADIUS ∧
      (updateball topBounceState.Ball).Y ≤ BALL_RADIUS) ∧
    (tick topBounceState 0 0).Ball.Y = 12 ∧ (tick topBounceState 0 0).Ball.Dy = 1 :=
  ⟨by decide,
   (wall_bounce.2.2.2.2 topBounceState 0 0 (by decide) (by decide) (by decide) (by decide)
      (by decide) (by decide) (by decide)).1 (by decide)⟩

/-! ## C18: at most one goal per tick -/

theorem tick_score (g : Gamestate) (r1 r2 : Fin 2) :
    ((updateball g.Ball).X ≤ BALL_RADIUS →
      (tick g r1 r2).Score = { g.Score with Player2 := wrapInt (g.Score.Player2 + 1) }) ∧
    (¬ (updateball g.Ball).X ≤ BALL_RADIUS → (updateball g.Ball).X ≥ GAME_WIDTH - BALL_RADIUS →
      (tick g r1 r2).Score = { g.Score with Player1 := wrapInt (g.Score.Player1 + 1) }) ∧
    (¬ (updateball g.Ball).X ≤ BALL_RADIUS →
      ¬ (updateball g.Ball).X ≥ GAME_WIDTH - BALL_RADIUS →
      (tick g r1 r2).Score = g.Score) := by
  have hs := (collisionwithpaddle_frame
    (collisionwithwall { g with Ball := updateball g.Ball } r1 r2)).2.2.1
  have ht : (tick g r1 r2).Score =
      (collisionwithwall { g with Ball := updateball g.Ball } r1 r2).Score := hs
  rw [ht]
  refine ⟨fun h => ?_, fun h1 h2 => ?_, fun h1 h2 => ?_⟩
  · rw [collisionwithwall_left _ r1 r2 h]
  · rw [collisionwithwall_right _ r1 r2 h1 h2]
  · simp only [BALL_RADIUS, GAME_WIDTH, ge_iff_le, not_le] at h1 h2
    exact (collisionwithwall_nogoal _ r1 r2 (by simp only [BALL_RADIUS]; omega)
      (by simp only [BALL_RADIUS, GAME_WIDTH]; omega)).2.2.2

/-- C18 fails as stated: with non-negative scores 0 and `2^63 - 1`, a tick
whose advanced ball reaches x = 12 wraps `Score.Player2` to `-2^63`: the score
decreases, becomes negative, and the sum does not increase by 1. -/
theorem one_goal_per_tick_counterexample :
    0 ≤ scoreAtMax.Score.Player1 ∧ 0 ≤ scoreAtMax.Score.Player2 ∧
    (updateball scoreAtMax.Ball).X ≤ 12 ∧
    (tick scoreAtMax 1 1).Score = { Player1 := 0, Player2 := -9223372036854775808 } ∧
    ¬ (scoreAtMax.Score.Player2 ≤ (tick scoreAtMax 1 1).Score.Player2) ∧
    ¬ (0 ≤ (tick scoreAtMax 1 1).Score.Player2) ∧
    ¬ ((tick scoreAtMax 1 1).Score.Player1 + (tick scoreAtMax 1 1).Score.Player2 =
      scoreAtMax.Score.Player1 + scoreAtMax.Score.Player2 + 1) := by
  decide

/-- C18, amended. At most one goal per tick: for every game state whose scores
are non-negative and below the largest `int`, and every random draw, after one
tick each of `Score.Player1` and `Score.Player2` is greater than or equal to
its previous value (so both stay non-negative), and the sum
`Player1 + Player2` increases by at most 1; it increases by exactly 1 if and
only if the advanced ball has `x ≤ 12` or `x ≥ 488`, and is unchanged
otherwise. -/
theorem one_goal_per_tick (g : Gamestate) (r1 r2 : Fin 2)
    (h1 : 0 ≤ g.Score.Player1) (h2 : 0 ≤ g.Score.Player2)
    (m1 : g.Score.Player1 < maxInt) (m2 : g.Score.Player2 < maxInt) :
    g.Score.Player1 ≤ (tick g r1 r2).Score.Player1 ∧
    g.Score.Player2 ≤ (tick g r1 r2).Score.Player2 ∧
    0 ≤ (tick g r1 r2).Score.Player1 ∧ 0 ≤ (tick g r1 r2).Score.Player2 ∧
    (tick g r1 r2).Score.Player1 + (tick g r1 r2).Score.Player2 ≤
      g.Score.Player1 + g.Score.Player2 + 1 ∧
    ((tick g r1 r2).Score.Player1 + (tick g r1 r2).Score.Player2 =
        g.Score.Player1 + g.Score.Player2 + 1 ↔
      ((updateball g.Ball).X ≤ 12 ∨ (updateball g.Ball).X ≥ 488)) ∧
    (¬ ((updateball g.Ball).X ≤ 12 ∨ (updateball g.Ball).X ≥ 488) →
      (tick g r1 r2).Score = g.Score) := by
  obtain ⟨left, right, none⟩ := tick_score g r1 r2
  simp only [maxInt] at m1 m2
  simp only [BALL_RADIUS, GAME_WIDTH] at left right none
  have e1 : wrapInt (g.Score.Player1 + 1) = g.Score.Player1 + 1 := by unfold wrapInt; omega
  have e2 : wrapInt (g.Score.Player2 + 1) = g.Score.Player2 + 1 := by unfold wrapInt; omega
  rw [e2] at left
  rw [e1] at right
  by_cases c1 : (updateball g.Ball).X ≤ 12
  · rw [left c1]
    simp only
    refine ⟨by omega, by omega, by omega, by omega, by omega, ?_, ?_⟩
    · exact ⟨fun _ => Or.inl c1, fun _ => by omega⟩
    · intro h
      exact absurd (Or.inl c1) h
  · by_cases c2 : (updateball g.Ball).X ≥ 500 - 12
    · rw [right c1 c2]
      simp only
      refine ⟨by omega, by omega, by omega, by omega, by omega, ?_, ?_⟩
      · exact ⟨fun _ => Or.inr (by omega), fun _ => by omega⟩
      · intro h
        exact absurd (Or.inr (by omega)) h
    · rw [none c1 c2]
      refine ⟨by omega, by omega, by omega, by omega, by omega, ?_, fun _ => rfl⟩
      constructor
      · intro h
        omega
      · intro h
        omega

/-- C18 (amended) at a concrete input: the right goal at score 3 : 4. -/
theorem one_goal_per_tick_witness :
    ((0 : Int) ≤ rightGoalState.Score.Player1 ∧ 0 ≤ rightGoalState.Score.Player2 ∧
      rightGoalState.Score.Player1 < maxInt ∧ rightGoalState.Score.Player2 < maxInt ∧
      (updateball rightGoalState.Ball).X ≥ 488) ∧
    (tick rightGoalState 0 1).Score.Player1 + (tick rightGoalState 0 1).Score.Player2 =
      rightGoalState.Score.Player1 + rightGoalState.Score.Player2 + 1 :=
  ⟨by decide,
   (one_goal_per_tick rightGoalState 0 1 (by decide) (by decide) (by decide)
      (by decide)).2.2.2.2.2.1.mpr (Or.inr (by decide))⟩

/-! ## C19: horizontal containment -/

theorem hitPaddle1_x (w : Gamestate) (hx1 : w.Paddle1.X = 0) (hw1 : w.Paddle1.Width = 25)
    (h : hitPaddle1 w = true) : w.Ball.X ≤ 37 := by
  have e37 : wrapInt (wrapInt (0 + 25) + 12) = 37 := by decide
  simp only [hitPaddle1, hx1, hw1, BALL_RADIUS, e37, Bool.and_eq_true, decide_eq_true_eq] at h
  exact h.1.1.2

theorem afterWall_goal_ball (g : Gamestate) (r1 r2 : Fin 2)
    (h : (updateball g.Ball).X ≤ BALL_RADIUS ∨ (updateball g.Ball).X ≥ GAME_WIDTH - BALL_RADIUS) :
    (afterWall g r1 r2).Ball = Ballcreation r1 r2 := by
  unfold afterWall
  by_cases c : (updateball g.Ball).X ≤ BALL_RADIUS
  · rw [collisionwithwall_left _ r1 r2 c]
  · rcases h with h | h
    · exact absurd h c
    · rw [collisionwithwall_right _ r1 r2 c h]

theorem afterWall_paddles (g : Gamestate) (r1 r2 : Fin 2) :
    (afterWall g r1 r2).Paddle1 = g.Paddle1 ∧ (afterWall g r1 r2).Paddle2 = g.Paddle2 :=
  collisionwithwall_paddles { g with Ball := updateball g.Ball } r1 r2

/-- C19. Horizontal containment: for every game state whose paddles have the
session-start x positions and widths (paddle1 x = 0 and width 25, paddle2
x = 475) and every random draw, after one tick the ball satisfies
`BALL_RADIUS < x < GAME_WIDTH - BALL_RADIUS`, that is `13 ≤ x ≤ 487`, whatever
the ball's previous position and speed; and within a tick paddle1's hit
condition can only hold for an advanced ball with `12 < x ≤ 37`: for an
advanced ball at `x ≤ 12` the goal is scored first and the paddle test fails
on the respawned ball. -/
theorem horizontal_containment (g : Gamestate) (r1 r2 : Fin 2)
    (hx1 : g.Paddle1.X = 0) (hw1 : g.Paddle1.Width = 25) (hx2 : g.Paddle2.X = 475) :
    BALL_RADIUS < (tick g r1 r2).Ball.X ∧ (tick g r1 r2).Ball.X < GAME_WIDTH - BALL_RADIUS ∧
    13 ≤ (tick g r1 r2).Ball.X ∧ (tick g r1 r2).Ball.X ≤ 487 ∧
    (hitPaddle1 (afterWall g r1 r2) = true →
      12 < (updateball g.Ball).X ∧ (updateball g.Ball).X ≤ 37) ∧
    ((updateball g.Ball).X ≤ 12 →
      hitPaddle1 (afterWall g r1 r2) = false ∧
      (tick g r1 r2).Score.Player2 = wrapInt (g.Score.Player2 + 1)) := by
  obtain ⟨p1, p2⟩ := afterWall_paddles g r1 r2
  have wx1 : (afterWall g r1 r2).Paddle1.X = 0 := by rw [p1]; exact hx1
  have ww1 : (afterWall g r1 r2).Paddle1.Width = 25 := by rw [p1]; exact hw1
  have wx2 : (afterWall g r1 r2).Paddle2.X = 475 := by rw [p2]; exact hx2
  have ht : tick g r1 r2 = collisionwithpaddle (afterWall g r1 r2) := rfl
  have hgoal : ((updateball g.Ball).X ≤ BALL_RADIUS ∨
      (updateball g.Ball).X ≥ GAME_WIDTH - BALL_RADIUS) →
      (afterWall g r1 r2).Ball.X = 250 ∧ hitPaddle1 (afterWall g r1 r2) = false := by
    intro h
    have hb := afterWall_goal_ball g r1 r2 h
    have hx : (afterWall g r1 r2).Ball.X = 250 := by rw [hb]; rfl
    refine ⟨hx, ?_⟩
    cases hh : hitPaddle1 (afterWall g r1 r2) with
    | false => rfl
    | true =>
      have := hitPaddle1_x _ wx1 ww1 hh
      omega
  have hrange : 12 < (afterWall g r1 r2).Ball.X ∧ (afterWall g r1 r2).Ball.X < 488 := by
    by_cases c : (updateball g.Ball).X ≤ BALL_RADIUS ∨
        (updateball g.Ball).X ≥ GAME_WIDTH - BALL_RADIUS
    · rw [(hgoal c).1]
      omega
    · simp only [BALL_RADIUS, GAME_WIDTH, not_or, not_le, ge_iff_le] at c
      have hx := (afterWall_nogoal g r1 r2 (by simp only [BALL_RADIUS]; omega)
        (by simp only [BALL_RADIUS, GAME_WIDTH]; omega)).1
      rw [hx]
      omega
  have hfinal : 12 < (tick g r1 r2).Ball.X ∧ (tick g r1 r2).Ball.X < 488 := by
    obtain ⟨c1, c2, c3⟩ := collisionwithpaddle_cases (afterWall g r1 r2) wx1 ww1 wx2
    rw [ht]
    cases h1 : hitPaddle1 (afterWall g r1 r2) with
    | true =>
      rw [c1 h1]
      simp only
      omega
    | false =>
      cases h2 : hitPaddle2 (afterWall g r1 r2) with
      | true =>
        rw [c2 h2]
        simp only
        omega
      | false =>
        rw [c3 h1 h2]
        exact hrange
  refine ⟨by simp only [BALL_RADIUS]; omega, by simp only [BALL_RADIUS, GAME_WIDTH]; omega,
    by omega, by omega, ?_, ?_⟩
  · intro hh
    by_cases c : (updateball g.Ball).X ≤ BALL_RADIUS ∨
        (updateball g.Ball).X ≥ GAME_WIDTH - BALL_RADIUS
    · rw [(hgoal c).2] at hh
      exact absurd hh (by decide)
    · simp only [BALL_RADIUS, GAME_WIDTH, not_or, not_le, ge_iff_le] at c
      have hx := (afterWall_nogoal g r1 r2 (by simp only [BALL_RADIUS]; omega)
        (by simp only [BALL_RADIUS, GAME_WIDTH]; omega)).1
      have := hitPaddle1_x _ wx1 ww1 hh
      rw [hx] at this
      omega
  · intro hle
    have hle1 : (updateball g.Ball).X ≤ BALL_RADIUS := by simp only [BALL_RADIUS]; exact hle
    refine ⟨(hgoal (Or.inl hle1)).2, ?_⟩
    rw [(tick_score g r1 r2).1 hle1]

/-- C19 at a concrete input: a ball of speed 5 reaching player1's paddle is
put back at x = 37. -/
theorem horizontal_containment_witness :
    (incomingState.Paddle1.X = 0 ∧ incomingState.Paddle1.Width = 25 ∧
      incomingState.Paddle2.X = 475) ∧
    BALL_RADIUS < (tick incomingState 0 0).Ball.X ∧
    (tick incomingState 0 0).Ball.X < GAME_WIDTH - BALL_RADIUS ∧
    13 ≤ (tick incomingState 0 0).Ball.X ∧ (tick incomingState 0 0).Ball.X ≤ 487 :=
  have h := horizontal_containment incomingState 0 0 (by decide) (by decide) (by decide)
  ⟨by decide, h.1, h.2.1, h.2.2.1, h.2.2.2.1⟩

/-! ## C20: frame condition of the input handler -/

theorem paddleMovement_cases (g : Gamestate) (playerID role direction : String) :
    (role = "player1" → g.Paddle1.Id = playerID →
      paddleMovement (some g) playerID role direction =
        some { g with Paddle1 := movePaddle g.Paddle1 direction }) ∧
    (role = "player2" → g.Paddle2.Id = playerID →
      paddleMovement (some g) playerID role direction =
        some { g with Paddle2 := movePaddle g.Paddle2 direction }) ∧
    (¬ (role = "player1" ∧ g.Paddle1.Id = playerID) →
      ¬ (role = "player2" ∧ g.Paddle2.Id = playerID) →
      paddleMovement (some g) playerID role direction = some g) := by
  have n21 : ¬ ("player2" = "player1") := by decide
  refine ⟨?_, ?_, ?_⟩
  · rintro rfl h
    unfold paddleMovement
    simp only [if_true]
    rw [if_neg (not_not.mpr h)]
  · rintro rfl h
    unfold paddleMovement
    simp only [if_neg n21, if_true]
    rw [if_neg (not_not.mpr h)]
  · intro h1 h2
    unfold paddleMovement
    simp only
    split_ifs with a b c d
    · rfl
    · exact absurd ⟨a, not_not.mp b⟩ h1
    · rfl
    · exact absurd ⟨c, not_not.mp d⟩ h2
    · rfl

/-- C20. Input frame condition: for every active game state and every
(playerID, role, direction), `paddleMovement` keeps the game active and changes
at most the y field of the paddle named by role: the ball, the score, the type
tag, the other paddle, and the x, width, height, role and Id of both paddles
are unchanged. -/
theorem input_frame (g : Gamestate) (playerID role direction : String) :
    ∃ g1, paddleMovement (some g) playerID role direction = some g1 ∧
      g1.Ball = g.Ball ∧ g1.Score = g.Score ∧ g1.Type_ = g.Type_ ∧
      (role ≠ "player1" → g1.Paddle1 = g.Paddle1) ∧
      (role ≠ "player2" → g1.Paddle2 = g.Paddle2) ∧
      (g1.Paddle1.X = g.Paddle1.X ∧ g1.Paddle1.Width = g.Paddle1.Width ∧
        g1.Paddle1.Height = g.Paddle1.Height ∧ g1.Paddle1.Role = g.Paddle1.Role ∧
        g1.Paddle1.Id = g.Paddle1.Id) ∧
      (g1.Paddle2.X = g.Paddle2.X ∧ g1.Paddle2.Width = g.Paddle2.Width ∧
        g1.Paddle2.Height = g.Paddle2.Height ∧ g1.Paddle2.Role = g.Paddle2.Role ∧
        g1.Paddle2.Id = g.Paddle2.Id) := by
  have f1 := movePaddle_fields g.Paddle1 direction
  have f2 := movePaddle_fields g.Paddle2 direction
  have n12 : ("player1" : String) ≠ "player2" := by decide
  obtain ⟨own1, own2, other⟩ := paddleMovement_cases g playerID role direction
  by_cases c1 : role = "player1" ∧ g.Paddle1.Id = playerID
  · refine ⟨_, own1 c1.1 c1.2, rfl, rfl, rfl, fun h => absurd c1.1 h, fun _ => rfl, f1,
      ⟨rfl, rfl, rfl, rfl, rfl⟩⟩
  · by_cases c2 : role = "player2" ∧ g.Paddle2.Id = playerID
    · refine ⟨_, own2 c2.1 c2.2, rfl, rfl, rfl, fun _ => rfl, fun h => absurd c2.1 h,
        ⟨rfl, rfl, rfl, rfl, rfl⟩, f2⟩
    · exact ⟨_, other c1 c2, rfl, rfl, rfl, fun _ => rfl, fun _ => rfl,
        ⟨rfl, rfl, rfl, rfl, rfl⟩, ⟨rfl, rfl, rfl, rfl, rfl⟩⟩

/-- C20 at a concrete input: player "b" moves paddle2 of `rallyState` up;
only that paddle's y changes, from 400 to 350. -/
theorem input_frame_witness :
    ("player2" : String) ≠ "player1" ∧
    ∃ g1, paddleMovement (some rallyState) "b" "player2" "up" = some g1 ∧
      g1.Ball = rallyState.Ball ∧ g1.Score = rallyState.Score ∧
      g1.Type_ = rallyState.Type_ ∧ g1.Paddle1 = rallyState.Paddle1 ∧
      g1.Paddle2 = { rallyState.Paddle2 with Y := 350 } :=
  ⟨by decide,
   (input_frame rallyState "b" "player2" "up").elim fun g1 h =>
     have e : paddleMovement (some rallyState) "b" "player2" "up" =
         some { rallyState with Paddle2 := { rallyState.Paddle2 with Y := 350 } } := by decide
     have hg : g1 = { rallyState with Paddle2 := { rallyState.Paddle2 with Y := 350 } } :=
       Option.some.inj (h.1.symm.trans e)
     ⟨g1, h.1, h.2.1, h.2.2.1, h.2.2.2.1, h.2.2.2.2.1 (by decide), by rw [hg]⟩⟩

end Pong
